import Mathlib

/-!
# startTool: lifecycle, registry and stop-flag properties

A shallow embedding of the supervision engine of the `startTool` repository:

* `src/plugins/example_process.c` (the example plugin, a set of file-scope globals
  operated on by `start`, `stop`, ...), embedded as pure functions on a record of
  the globals, plus a small-step interleaving of the thread that runs `start`
  with the thread that calls `stop`;
* `src/plugins/example_task.c` and the C++ units, embedded as loop machines;
* the registry and loader, whose implementation files are not part of the
  sources at hand and are modelled from the specification text.

Conventions: C `int` values are `Int`; `uint32_t` / `uint64_t` values are `Nat`
reduced modulo `2^32` / `2^64` where the C code converts; a `char` array that
the code fills with `strcpy` / `strncpy` is the list of its bytes, and an output
buffer likewise; a blocking loop is a step function on a configuration with a
program counter, so that other threads can be interleaved between two of its
steps.
-/

namespace StartTool

/-! ## Machine integers -/

/-- Conversion of a C `int` expression to `uint32_t`. -/
def toU32 (x : Int) : Nat := (x % 2 ^ 32).toNat

/-- Conversion of a C integer expression to `uint64_t`. -/
def toU64 (x : Int) : Nat := (x % 2 ^ 64).toNat

/-- Two's-complement wrap of a value into the range of a 32-bit `int`
(what `x++` yields on the usual targets once `INT_MAX` is passed). -/
def wrapInt32 (x : Int) : Int := (x + 2 ^ 31) % 2 ^ 32 - 2 ^ 31

/-- `SIGINT` from `<signal.h>`. -/
def SIGINT : Int := 2

/-- `SIGTERM` from `<signal.h>`. -/
def SIGTERM : Int := 15

/-! ## `process_interface.h` -/

/-- `ProcessState` of `process_interface.h`, in declaration order. -/
inductive ProcessState where
  | UNKNOWN
  | INITIALIZING
  | RUNNING
  | STOPPING
  | STOPPED
  | ERROR
  deriving DecidableEq, Repr

/-- `ProcessStats` of `process_interface.h`. -/
structure ProcessStats where
  start_time : Nat
  run_time : Nat
  cpu_usage : Nat
  memory_usage : Nat
  restart_times : Nat
  deriving DecidableEq, Repr

/-- `PROCESS_INTERFACE_VERSION` of `process_interface.h`. -/
def PROCESS_INTERFACE_VERSION : Nat := 0x00010000

/-! ## `example_process.c`: the globals and the non-blocking parts -/

/-- The file-scope globals of `example_process.c`. A `LogCallback` is a function
pointer; it is kept as an address, `none` being `NULL`. -/
structure Plugin where
  g_state : ProcessState
  g_should_stop : Bool
  g_log_callback : Option Nat
  g_stats : ProcessStats
  deriving DecidableEq, Repr

/-- The initial values of the globals (lines 12-14 and 28). -/
def Plugin.initial : Plugin :=
  { g_state := .STOPPED, g_should_stop := false, g_log_callback := none,
    g_stats := ⟨0, 0, 0, 0, 0⟩ }

namespace ExampleProcess

/-- Lines 94-103 of `start`: the entry check and, when it passes, the switch to
`RUNNING` with the stop flag cleared. `Except.error` carries the code returned
at line 98. -/
def start_entry (p : Plugin) : Except Int Plugin :=
  if p.g_state ≠ .STOPPED then .error (-1)
  else .ok { p with g_state := .RUNNING, g_should_stop := false }

/-- Lines 111-119 of `start`: one pass through the loop body after the
`sleep(2)`, with `now` the value of `time(NULL)`. Returns the new
`cycle_count` and the globals. -/
def start_body (now : Nat) (cycle_count : Int) (p : Plugin) : Int × Plugin :=
  let c := wrapInt32 (cycle_count + 1)
  (c, { p with g_stats :=
        { p.g_stats with
          run_time := toU64 ((now : Int) - (p.g_stats.start_time : Int))
          cpu_usage := toU32 (10 + Int.tmod c 20)
          memory_usage := toU64 (1024 * 1024 * (5 + Int.tmod c 10)) } })

/-- Lines 126-128 of `start`: the loop has been left, the state becomes
`STOPPED`. -/
def start_exit (p : Plugin) : Plugin := { p with g_state := .STOPPED }

/-- What happens around the plugin during one pass of a blocking loop: the
clock value read in that pass and the writes of the other threads while this
one sleeps. -/
structure LoopEnv where
  now : Nat
  others : Plugin → Plugin

/-- Lines 108-124 of `start`: the main loop. Each element of the list is the
environment of one pass (the other threads act during `sleep(2)`); `none` when
the list ends before the loop test sees the stop flag. -/
def start_loop : List LoopEnv → Int → Plugin → Option Plugin
  | [], _, p => if p.g_should_stop then some p else none
  | e :: es, c, p =>
    if p.g_should_stop then some p
    else
      let r := start_body e.now c (e.others p)
      start_loop es r.1 r.2

/-- The function `start` (lines 93-132): the returned code and the globals at
return, or `none` when the given environment never lets the loop end. -/
def start (env : List LoopEnv) (p : Plugin) : Option (Int × Plugin) :=
  match start_entry p with
  | .error code => some (code, p)
  | .ok p1 =>
    match start_loop env 0 p1 with
    | none => none
    | some p2 => some (0, start_exit p2)

/-- Lines 138-147 of `stop`: the entry check and, when it passes, the switch to
`STOPPING` with the stop flag set. -/
def stop_entry (p : Plugin) : Except Int Plugin :=
  if p.g_state ≠ .RUNNING then .error (-1)
  else .ok { p with g_state := .STOPPING, g_should_stop := true }

/-- Lines 152-154 of `stop`: the wait for the main loop. Each element of the list
is what the other threads write during one `usleep(100000)`; `none` when the
list is used up with the state still `STOPPING`. -/
def stop_wait : List (Plugin → Plugin) → Plugin → Option Plugin
  | [], p => if p.g_state = .STOPPING then none else some p
  | f :: fs, p => if p.g_state = .STOPPING then stop_wait fs (f p) else some p

/-- The function `stop` (lines 137-157). -/
def stop (env : List (Plugin → Plugin)) (p : Plugin) : Option (Int × Plugin) :=
  match stop_entry p with
  | .error code => some (code, p)
  | .ok p1 =>
    match stop_wait env p1 with
    | none => none
    | some p2 => some (0, p2)

/-- The function `handle_signal` (lines 192-198). -/
def handle_signal (signal : Int) (p : Plugin) : Plugin :=
  if signal = SIGTERM ∨ signal = SIGINT then { p with g_should_stop := true } else p

/-- The exported function `get_interface_version` (lines 236-238). It takes no
argument; the globals are passed to make its independence of them a statement. -/
def get_interface_version (_p : Plugin) : Nat := PROCESS_INTERFACE_VERSION

/-! ## `example_process.c`: `start` on one thread, `stop` on another -/

/-- Where the thread that runs `start` stands: before line 94, at the loop test
of line 109 (with the current `cycle_count`), inside the loop body (asleep at
line 111, before the update of lines 115-119), between the loop and line 126,
or returned. -/
inductive StartPC where
  | entry
  | loop_test (cycle_count : Int)
  | body (cycle_count : Int)
  | after_loop
  | returned (code : Int)
  deriving DecidableEq, Repr

/-- Where the thread that calls `stop` stands: before line 138, in the wait loop
of lines 152-154, or returned. -/
inductive StopPC where
  | entry
  | waiting
  | returned (code : Int)
  deriving DecidableEq, Repr

/-- The plugin's globals together with the two threads that use them, and the
`sleep` calls the thread in `start` has completed, most recent first, in
milliseconds. -/
structure System where
  plugin : Plugin
  start_pc : StartPC
  stop_pc : StopPC
  slept : List Nat
  deriving DecidableEq, Repr

/-- One atomic action: a step of the thread in `start` (`now` is what `time(NULL)`
returns should the step read the clock), a step of the thread in `stop`, or the
delivery of a signal through `handle_signal`. Sections between
`pthread_mutex_lock` and `pthread_mutex_unlock` are one step; outside them a
step reads or writes one global. -/
inductive Action where
  | start_thread (now : Nat)
  | stop_thread
  | signal (sig : Int)
  deriving DecidableEq, Repr

/-- One step of the thread that runs `start`. The step from `body` is the end of
the `sleep(2)` of line 111 followed by lines 112-119. -/
def start_step (now : Nat) (s : System) : System :=
  match s.start_pc with
  | .entry =>
    match start_entry s.plugin with
    | .error code => { s with start_pc := .returned code }
    | .ok p => { s with plugin := p, start_pc := .loop_test 0 }
  | .loop_test c =>
    if s.plugin.g_should_stop then { s with start_pc := .after_loop }
    else { s with start_pc := .body c }
  | .body c =>
    let r := start_body now c s.plugin
    { s with plugin := r.2, start_pc := .loop_test r.1, slept := 2000 :: s.slept }
  | .after_loop => { s with plugin := start_exit s.plugin, start_pc := .returned 0 }
  | .returned _ => s

/-- One step of the thread that calls `stop`. In the wait loop a step reads
`g_state` once: `STOPPING` means another `usleep(100000)`, anything else ends
the loop and `stop` returns 0. -/
def stop_step (s : System) : System :=
  match s.stop_pc with
  | .entry =>
    match stop_entry s.plugin with
    | .error code => { s with stop_pc := .returned code }
    | .ok p => { s with plugin := p, stop_pc := .waiting }
  | .waiting =>
    if s.plugin.g_state = .STOPPING then s else { s with stop_pc := .returned 0 }
  | .returned _ => s

/-- The effect of one action on the system. -/
def step : Action → System → System
  | .start_thread now, s => start_step now s
  | .stop_thread, s => stop_step s
  | .signal sig, s => { s with plugin := handle_signal sig s.plugin }

/-- The effect of a schedule, a list of actions taken from left to right. -/
def run : List Action → System → System
  | [], s => s
  | a :: as, s => run as (step a s)

/-- The invariant that ties the thread in `stop` to the thread in `start`: while
`stop` waits, the state is `STOPPING` unless `start` has already left its loop
and written `STOPPED`; once `stop` has returned 0, the latter is the case. -/
def stop_inv (s : System) : Prop :=
  match s.stop_pc with
  | .entry => True
  | .waiting =>
    s.plugin.g_state = .STOPPING ∨
      (s.plugin.g_state = .STOPPED ∧ s.start_pc = .returned 0)
  | .returned code =>
    code = 0 → (s.plugin.g_state = .STOPPED ∧ s.start_pc = .returned 0)

end ExampleProcess

/-! ## The plugin loader (`process_manager.h`) -/

/-- What `dlopen` and `dlsym` find in a library file: its handle, the result of
the exported `get_process_interface` (outer `none`: the symbol is missing;
`some none`: it returns `NULL`; otherwise the address of the capability table)
and the result of the exported `get_interface_version` (`none`: the symbol is
missing). -/
structure Library where
  handle : Nat
  get_process_interface : Option (Option Nat)
  get_interface_version : Option Nat
  deriving DecidableEq, Repr

/-- `ProcessNode` of `process_manager.h` (the thread handle and the queue links
are left out; the list below carries the order). -/
structure ProcessNode where
  name : String
  library_path : String
  config_data : String
  lib_handle : Nat
  interface : Nat
  is_running : Bool
  should_restart : Bool
  restart_count : Nat
  deriving DecidableEq, Repr

/-- `ProcessManager` of `process_manager.h` (mutex and monitor thread left out). -/
structure ProcessManager where
  process_list : List ProcessNode
  is_running : Bool
  log_callback : Option Nat
  deriving DecidableEq, Repr

/-- Modelled from the spec: `process_manager_load_plugin`, declared in
`process_manager.h`; its implementation file is not among the sources. Section
4.2: the loader opens the library at the path, resolves the two required entry
points, rejects the library if the returned version does not exactly match
the expected constant, and on any failure (library not found, missing
symbols, version mismatch, null capability table) fails without partial
registration; section 4.3: a name that already exists is refused. `dl` is the
file system as `dlopen` sees it. Every failure is reported as -1 (the header
only promises a non-zero code). -/
def process_manager_load_plugin (dl : String → Option Library) (m : ProcessManager)
    (name library_path config_data : String) : Int × ProcessManager :=
  if m.process_list.any (fun n => n.name == name) then (-1, m)
  else
    match dl library_path with
    | none => (-1, m)
    | some lib =>
      match lib.get_process_interface, lib.get_interface_version with
      | some iface, some version =>
        if version ≠ PROCESS_INTERFACE_VERSION then (-1, m)
        else
          match iface with
          | none => (-1, m)
          | some table =>
            (0, { m with process_list := m.process_list ++
                  [{ name := name, library_path := library_path,
                     config_data := config_data, lib_handle := lib.handle,
                     interface := table, is_running := false,
                     should_restart := false, restart_count := 0 }] })
      | _, _ => (-1, m)

/-! ## `task_interface.h` -/

/-- `TaskState` of `task_interface.h`, in declaration order. -/
inductive TaskState where
  | UNKNOWN
  | INITIALIZED
  | RUNNING
  | STOPPING
  | STOPPED
  | ERROR
  deriving DecidableEq, Repr

/-- `TaskPriority` of `task_interface.h`. -/
inductive TaskPriority where
  | LOW
  | NORMAL
  | HIGH
  | CRITICAL
  deriving DecidableEq, Repr

/-- `TaskStats` of `task_interface.h`. -/
structure TaskStats where
  start_time : Nat
  total_run_time : Nat
  execution_count : Nat
  error_count : Nat
  cpu_usage : Nat
  memory_usage : Nat
  last_heartbeat : Nat
  deriving DecidableEq, Repr

/-- `ExampleTaskConfig` of `example_task.h`; `message` holds the bytes of the
array `char message[256]`. -/
structure ExampleTaskConfig where
  work_interval : Int
  use_random_delay : Bool
  message : List Nat
  deriving DecidableEq, Repr

/-- What the `void* custom_config` of a `TaskConfig` points to: the example task
stores an `ExampleTaskConfig` there, the C++ units read it as a C string. -/
inductive CustomConfig where
  | example_task (c : ExampleTaskConfig)
  | text (s : String)
  deriving DecidableEq, Repr

/-- `TaskConfig` of `task_interface.h`; `custom_config` is `none` for `NULL`. -/
structure TaskConfig where
  name : String
  description : String
  priority : TaskPriority
  max_restart_count : Nat
  heartbeat_interval : Nat
  auto_restart : Bool
  enable_stats : Bool
  custom_config : Option CustomConfig
  deriving DecidableEq, Repr

/-- `TaskBase` of `task_interface.h` (thread handle and mutex left out). The
`vtable` pointer is kept as the address of the table, `none` for `NULL`. -/
structure TaskBase where
  config : TaskConfig
  state : TaskState
  stats : TaskStats
  should_stop : Bool
  restart_count : Nat
  vtable : Option Nat
  deriving DecidableEq, Repr

/-- Modelled from the spec: `task_should_stop`, declared in `task_interface.h`
("true: should stop, false: keep running"); its implementation file is not
among the sources. It reads the stop flag of the record. -/
def task_should_stop (task : TaskBase) : Bool := task.should_stop

/-- Modelled from the spec: `task_update_heartbeat`, declared in
`task_interface.h` ("update the heartbeat time"); its implementation file is not
among the sources. It stores the clock value in `stats.last_heartbeat`. -/
def task_update_heartbeat (now : Nat) (task : TaskBase) : TaskBase :=
  { task with stats := { task.stats with last_heartbeat := now } }

/-- Modelled from the spec: `task_get_custom_config`, declared in
`task_interface.h` ("returns the custom configuration pointer"). -/
def task_get_custom_config (task : TaskBase) : Option CustomConfig :=
  task.config.custom_config

/-! ## The task registry (`task_manager.h`) -/

/-- `TaskNode` of `task_manager.h`. The node refers to the unit's record; the
record is kept in the node. -/
structure TaskNode where
  task : TaskBase
  name : String
  deriving DecidableEq, Repr

/-- `TaskManager` of `task_manager.h` (mutex and monitor thread left out). -/
structure TaskManager where
  task_list : List TaskNode
  is_running : Bool
  task_count : Nat
  running_task_count : Nat
  deriving DecidableEq, Repr

/-- Modelled from the spec: `task_manager_create`, declared in `task_manager.h`;
the implementation file `task_manager.c` is not among the sources. A new
registry has no entries. -/
def task_manager_create : TaskManager :=
  { task_list := [], is_running := false, task_count := 0, running_task_count := 0 }

/-- Modelled from the spec: `task_manager_register`, declared in `task_manager.h`;
the implementation file is not among the sources. Section 4.3: `register(name,
unit)` fails if `name` already exists; section 3: entries are append-ordered;
section 7: a registration error is reported to the caller and no state
mutation occurs. Failure is reported as -1 (the header only promises a
non-zero code). -/
def task_manager_register (m : TaskManager) (task : TaskBase) (name : String) :
    Int × TaskManager :=
  if m.task_list.any (fun n => n.name == name) then (-1, m)
  else
    (0, { m with task_list := m.task_list ++ [{ task := task, name := name }],
                 task_count := m.task_count + 1 })

/-- Modelled from the spec: `task_manager_get_task`, declared in `task_manager.h`
("the task, or NULL when not found"). -/
def task_manager_get_task (m : TaskManager) (name : String) : Option TaskBase :=
  (m.task_list.find? (fun n => n.name == name)).map (fun n => n.task)

/-- Modelled from the spec: `task_manager_list_tasks`, declared in
`task_manager.h`; the implementation file is not among the sources. Section 4.3:
`list()` produces the names in registration order; the header: `names` is the
output array, `max_count` its capacity, the result the number of tasks
listed. The second component is what is written to `names`. `max_count` is a
capacity, taken as a natural number (the caller in `task_demo.c` passes 32). -/
def task_manager_list_tasks (m : TaskManager) (max_count : Nat) : Int × List String :=
  let names := (m.task_list.map (fun n => n.name)).take max_count
  ((names.length : Int), names)

/-- The registry after the records of its units have changed (by `f`, given the
entry's name and record): the units run and change state on their own threads,
the entries stay. -/
def TaskManager.update_tasks (f : String → TaskBase → TaskBase) (m : TaskManager) :
    TaskManager :=
  { m with task_list := m.task_list.map (fun n => { n with task := f n.name n.task }) }

/-- The names of the registry's entries, in list order. -/
def TaskManager.names (m : TaskManager) : List String :=
  m.task_list.map (fun n => n.name)

/-- A sequence of registrations, from left to right, refused ones skipped. -/
def register_all : List (TaskBase × String) → TaskManager → TaskManager
  | [], m => m
  | r :: rs, m => register_all rs (task_manager_register m r.1 r.2).2

/-- The configuration `config1` of `task_demo.c` (lines 158-167). -/
def config1 : TaskConfig :=
  { name := "task1", description := "第一个示例任务", priority := .NORMAL,
    max_restart_count := 3, heartbeat_interval := 10, auto_restart := true,
    enable_stats := true, custom_config := none }

/-- A sample unit record: `config1` in a unit that is not running, bound to a
table at address 1. -/
def sample_task : TaskBase :=
  { config := config1, state := .STOPPED, stats := ⟨0, 0, 0, 0, 0, 0, 0⟩,
    should_stop := false, restart_count := 0, vtable := some 1 }

/-! ## Bounded automatic restart (`task_restart`, the monitor) -/

/-- Modelled from the spec: `task_restart`, declared in `task_interface.h`; its
implementation file is not among the sources. Section 4.4: restart is stop
followed by start, only permitted while within the restart budget; the edge
`stopped → initializing` is permitted only when auto-restart is enabled and the
restart counter has not reached its configured maximum, and each traversal
increments the counter; start clears the stop flag and ends in `running`, or
in `error` when the unit's initialization fails (`init_ok = false`). -/
def task_restart (init_ok : Bool) (t : TaskBase) : Int × TaskBase :=
  if t.config.auto_restart = true ∧ t.restart_count < t.config.max_restart_count then
    if init_ok then
      (0, { t with restart_count := t.restart_count + 1, should_stop := false,
                   state := .RUNNING })
    else
      (-1, { t with restart_count := t.restart_count + 1, state := .ERROR })
  else (-1, t)

/-- What can happen to a unit between two observations: its running operation
reports failure, or the monitor ticks (`healthy` is the result of the unit's
health check in that tick, `init_ok` whether its initialization would succeed
should the tick restart it). -/
inductive UnitEvent where
  | failure
  | tick (healthy : Bool) (init_ok : Bool)
  deriving DecidableEq, Repr

/-- Modelled from the spec: the effect of an event on a unit. Section 4.4: `error`
is reached from `initializing`, `running` or `stopping` when the operation
reports failure; section 4.5: in each tick, if the unit is unhealthy or in
`error` state and auto-restart is enabled and the restart budget remains, the
monitor invokes restart. -/
def unit_step : UnitEvent → TaskBase → TaskBase
  | .failure, t =>
    if t.state = .INITIALIZED ∨ t.state = .RUNNING ∨ t.state = .STOPPING then
      { t with state := .ERROR }
    else t
  | .tick healthy init_ok, t =>
    if (healthy = false ∨ t.state = .ERROR) ∧ t.config.auto_restart = true ∧
        t.restart_count < t.config.max_restart_count then
      (task_restart init_ok t).2
    else t

/-- The effect of a sequence of events, from left to right. -/
def unit_run : List UnitEvent → TaskBase → TaskBase
  | [], t => t
  | e :: es, t => unit_run es (unit_step e t)

/-! ## `example_task.c`: `example_task_execute` -/

/-- `ExampleTask` of `example_task.c` (lines 14-22); `message` holds the bytes of
the array `char message[256]`, whether or not one of them is 0. -/
structure ExampleTask where
  base : TaskBase
  work_interval : Int
  counter : Int
  message : List Nat
  use_random_delay : Bool
  deriving DecidableEq, Repr

/-- Where `example_task_execute` stands: at the test of the main loop (line 73),
at the test of the delay loop (line 96, with the loop variable `i` and the local
`delay`), or returned. -/
inductive ExecPC where
  | loop_test
  | delay_test (i delay : Int)
  | returned (code : Int)
  deriving DecidableEq, Repr

/-- The running function: the unit, the position, and the `sleep` calls made so
far, most recent first, in milliseconds. -/
structure ExecConfig where
  task : ExampleTask
  pc : ExecPC
  slept : List Nat
  deriving DecidableEq, Repr

/-- What a step may read from outside the unit: `time(NULL)` and `rand()`. -/
structure ExecEnv where
  now : Nat
  rand : Nat
  deriving DecidableEq, Repr

/-- Lines 75-93 of `example_task_execute`: one work iteration, up to the
computation of `delay`. The section reads neither the stop flag nor the state,
so it is taken as one step. -/
def example_task_work (e : ExecEnv) (task : ExampleTask) : ExampleTask × Int :=
  let counter := wrapInt32 (task.counter + 1)
  let base1 := task_update_heartbeat e.now task.base
  let base2 :=
    { base1 with stats :=
        { base1.stats with
          cpu_usage := toU32 (10 + Int.tmod counter 20)
          memory_usage := toU64 (1024 * 1024 * (2 + Int.tmod counter 5)) } }
  let delay :=
    if task.use_random_delay then wrapInt32 (task.work_interval + Int.tmod (e.rand : Int) 3)
    else task.work_interval
  ({ task with base := base2, counter := counter }, delay)

/-- One step of `example_task_execute` (lines 73-104): a test of the main loop
followed by the work of lines 75-93 or by the return, or a test of the delay
loop followed by one `sleep(1)` or by the jump back to the main loop. -/
def example_task_execute_step (e : ExecEnv) (c : ExecConfig) : ExecConfig :=
  match c.pc with
  | .loop_test =>
    if task_should_stop c.task.base then { c with pc := .returned 0 }
    else
      let r := example_task_work e c.task
      { c with task := r.1, pc := .delay_test 0 r.2 }
  | .delay_test i delay =>
    if i < delay ∧ task_should_stop c.task.base = false then
      { c with slept := 1000 :: c.slept, pc := .delay_test (i + 1) delay }
    else { c with pc := .loop_test }
  | .returned _ => c

/-- One turn of a run: what the step reads, and what the other threads write into
the unit's base record after it (while the function sleeps or is preempted). -/
structure ExecTurn where
  env : ExecEnv
  others : TaskBase → TaskBase

/-- Steps of `example_task_execute` interleaved with the other threads, until the
function returns or the turns are used up. -/
def example_task_execute_run : List ExecTurn → ExecConfig → ExecConfig
  | [], c => c
  | t :: ts, c =>
    let c1 := example_task_execute_step t.env c
    match c1.pc with
    | .returned _ => c1
    | _ =>
      example_task_execute_run ts
        { c1 with task := { c1.task with base := t.others c1.task.base } }

/-- The function `example_task_execute` (lines 68-105): the returned code, the
unit at return and the sleeps made, or `none` when it has not returned within
the given turns. -/
def example_task_execute (turns : List ExecTurn) (task : ExampleTask) :
    Option (Int × ExampleTask × List Nat) :=
  let c := example_task_execute_run turns ⟨task, .loop_test, []⟩
  match c.pc with
  | .returned code => some (code, c.task, c.slept)
  | _ => none

/-! ## `cpp_example_task.cpp` -/

/-- The data members of `CppExampleTask` and of its base class `CppTaskBase`.
`should_stop_` is the flag that `should_stop()` reads and `set_stop_flag`
writes (lines 33-41); it is a member of the C++ object, not the `should_stop`
field of `TaskBase`. -/
structure CppExampleTask where
  name_ : String
  description_ : String
  should_stop_ : Bool
  log_callback_ : Option Nat
  counter_ : Int
  work_interval_ : Int
  deriving DecidableEq, Repr

/-- The constructor of `CppExampleTask` (line 69, with lines 17-18 and 61). -/
def CppExampleTask.new : CppExampleTask :=
  { name_ := "cpp_example", description_ := "C++示例任务", should_stop_ := false,
    log_callback_ := none, counter_ := 0, work_interval_ := 3 }

/-- The unit as `cpp_task_execute` sees it: the `TaskBase` at the head of the
`CppTaskWrapper`, and the global `g_cpp_task` (`none` when the pointer is
empty). -/
structure CppTaskWrapper where
  base : TaskBase
  g_cpp_task : Option CppExampleTask
  deriving DecidableEq, Repr

/-- Where `cpp_task_execute` stands: before line 178, at the main loop test of
`CppExampleTask::execute` (line 87), at the delay loop test (line 111, with the
loop variable `i`), or returned. -/
inductive CppPC where
  | entry
  | loop_test
  | delay_test (i : Int)
  | returned (code : Int)
  deriving DecidableEq, Repr

/-- The running `cpp_task_execute`: the unit, the position, and the sleeps made
so far, most recent first, in milliseconds. -/
structure CppConfig where
  unit : CppTaskWrapper
  pc : CppPC
  slept : List Nat
  deriving DecidableEq, Repr

/-- One step of `cpp_task_execute` (lines 175-189) running
`CppExampleTask::execute` (lines 84-117). Both loop tests call `should_stop()`,
which returns the member `should_stop_`. A step in the loop with the object
gone is left undefined (the configuration stays). -/
def cpp_task_execute_step (c : CppConfig) : CppConfig :=
  match c.pc, c.unit.g_cpp_task with
  | .entry, none => { c with pc := .returned (-1) }
  | .entry, some _ => { c with pc := .loop_test }
  | .loop_test, some t =>
    if t.should_stop_ then { c with pc := .returned 0 }
    else
      { c with
        unit := { c.unit with
          g_cpp_task := some { t with counter_ := wrapInt32 (t.counter_ + 1) } }
        pc := .delay_test 0 }
  | .delay_test i, some t =>
    if i < t.work_interval_ ∧ t.should_stop_ = false then
      { c with slept := 1000 :: c.slept, pc := .delay_test (i + 1) }
    else { c with pc := .loop_test }
  | _, _ => c

/-- A number of consecutive steps of `cpp_task_execute`. -/
def cpp_task_execute_run : Nat → CppConfig → CppConfig
  | 0, c => c
  | n + 1, c => cpp_task_execute_run n (cpp_task_execute_step c)

/-- The function `cpp_task_handle_signal` (lines 206-215), the one place that
sets `should_stop_`. -/
def cpp_task_handle_signal (signal : Int) (w : CppTaskWrapper) : CppTaskWrapper :=
  match w.g_cpp_task with
  | none => w
  | some t =>
    if signal = SIGTERM ∨ signal = SIGINT then
      { w with g_cpp_task := some { t with should_stop_ := true } }
    else w

/-! ## `simple_cpp_task.cpp` -/

/-- The data members of `SimpleCppTask` (lines 62-64). -/
structure SimpleCppTask where
  running_ : Bool
  iteration_count_ : Int
  deriving DecidableEq, Repr

/-- `SimpleCppTaskWrapper` (lines 71-74); `task` is `none` for an empty pointer. -/
structure SimpleCppTaskWrapper where
  base : TaskBase
  task : Option SimpleCppTask
  deriving DecidableEq, Repr

/-- Where `simple_cpp_task_execute` stands: before line 92, at the loop test of
`SimpleCppTask::start` (line 34), in the loop body (lines 35-39), or returned. -/
inductive SimplePC where
  | entry
  | loop_test
  | body
  | returned (code : Int)
  deriving DecidableEq, Repr

/-- The running `simple_cpp_task_execute`. -/
structure SimpleConfig where
  unit : SimpleCppTaskWrapper
  pc : SimplePC
  slept : List Nat
  deriving DecidableEq, Repr

/-- One step of `simple_cpp_task_execute` (lines 89-103) running
`SimpleCppTask::start` (lines 29-43). -/
def simple_cpp_task_execute_step (c : SimpleConfig) : SimpleConfig :=
  match c.pc, c.unit.task with
  | .entry, none => { c with pc := .returned (-1) }
  | .entry, some t =>
    { c with unit := { c.unit with task := some { t with running_ := true } },
             pc := .loop_test }
  | .loop_test, some t =>
    if t.running_ = true ∧ t.iteration_count_ < 100 then { c with pc := .body }
    else { c with pc := .returned 0 }
  | .body, some t =>
    { c with
      unit := { c.unit with
        task := some { t with iteration_count_ := wrapInt32 (t.iteration_count_ + 1) } }
      slept := 500 :: c.slept
      pc := .loop_test }
  | _, _ => c

/-- A number of consecutive steps of `simple_cpp_task_execute`. -/
def simple_cpp_task_execute_run : Nat → SimpleConfig → SimpleConfig
  | 0, c => c
  | n + 1, c => simple_cpp_task_execute_run n (simple_cpp_task_execute_step c)

/-! ## `data_processor_task.cpp` -/

/-- The data members of `DataProcessorTask` that its main thread uses: the
`running_` flag and the processed-record counter. The queues, filters and the
three worker threads started at lines 88-94 work on other members and never
write `running_`. -/
structure DataProcessorTask where
  running_ : Bool
  process_counter_ : Nat
  log_callback_ : Option Nat
  deriving DecidableEq, Repr

/-- `DataProcessorWrapper` (lines 496-499). -/
structure DataProcessorWrapper where
  base : TaskBase
  processor : Option DataProcessorTask
  deriving DecidableEq, Repr

/-- Where `data_processor_execute` stands: before line 521, at the loop test of
`main_monitoring_loop` (line 446, with the local `last_report`), in the loop
body (lines 447-456), or returned. Clock values are in milliseconds. -/
inductive DataPC where
  | entry
  | loop_test (last_report : Nat)
  | body (last_report : Nat)
  | returned (code : Int)
  deriving DecidableEq, Repr

/-- The running `data_processor_execute`. -/
structure DataConfig where
  unit : DataProcessorWrapper
  pc : DataPC
  slept : List Nat
  deriving DecidableEq, Repr

/-- One step of `data_processor_execute` (lines 518-532) running
`DataProcessorTask::start` (lines 83-98) and `main_monitoring_loop` (lines
441-460); `now` is the value of `steady_clock::now()` should the step read it. -/
def data_processor_execute_step (now : Nat) (c : DataConfig) : DataConfig :=
  match c.pc, c.unit.processor with
  | .entry, none => { c with pc := .returned (-1) }
  | .entry, some t =>
    { c with unit := { c.unit with processor := some { t with running_ := true } },
             pc := .loop_test now }
  | .loop_test last_report, some t =>
    if t.running_ then { c with pc := .body last_report }
    else { c with pc := .returned 0 }
  | .body last_report, some _ =>
    { c with
      slept := 10000 :: c.slept
      pc := .loop_test (if (now : Int) - (last_report : Int) > 60000 then now
                        else last_report) }
  | _, _ => c

/-- Consecutive steps of `data_processor_execute`, one for each clock value. -/
def data_processor_execute_run : List Nat → DataConfig → DataConfig
  | [], c => c
  | now :: rest, c => data_processor_execute_run rest (data_processor_execute_step now c)

/-! ## `network_service_task.cpp` -/

/-- `ServiceConfig` (lines 32-37). -/
structure ServiceConfig where
  port : Int
  max_connections : Int
  worker_threads : Int
  request_timeout : Int
  deriving DecidableEq, Repr

/-- `Request` (lines 23-30); the timestamp is in milliseconds. -/
structure Request where
  id : Int
  data : String
  timestamp : Nat
  deriving DecidableEq, Repr

/-- The data members of `NetworkServiceTask` (lines 255-266) and the function
static `last_cleanup` of `cleanup_timeout_requests` (`none` before its first
call). The worker threads take requests from the queue and never write
`running_`. -/
structure NetworkServiceTask where
  config_ : ServiceConfig
  running_ : Bool
  request_counter_ : Int
  completed_requests_ : Int
  request_queue_ : List Request
  last_cleanup : Option Nat
  deriving DecidableEq, Repr

/-- `NetworkServiceWrapper` (lines 273-276). -/
structure NetworkServiceWrapper where
  base : TaskBase
  service : Option NetworkServiceTask
  deriving DecidableEq, Repr

/-- What a pass of the service loop reads from outside: the clock when the
request is queued, the random delay in milliseconds, the clock in
`cleanup_timeout_requests`. -/
structure NetworkEnv where
  now_request : Nat
  delay_ms : Nat
  now_cleanup : Nat
  deriving DecidableEq, Repr

/-- The function `cleanup_timeout_requests` (lines 213-244). -/
def cleanup_timeout_requests (now : Nat) (t : NetworkServiceTask) : NetworkServiceTask :=
  match t.last_cleanup with
  | none => { t with last_cleanup := some now }
  | some last =>
    if (now : Int) - (last : Int) < 30000 then t
    else
      { t with
        request_queue_ := t.request_queue_.filter
          (fun r => decide ((r.timestamp : Int) > (now : Int) - t.config_.request_timeout * 1000))
        last_cleanup := some now }

/-- Lines 74-94 of `NetworkServiceTask::start`: one pass of the loop body. -/
def network_service_body (e : NetworkEnv) (t : NetworkServiceTask) : NetworkServiceTask :=
  let t1 :=
    if t.request_queue_.length < toU64 t.config_.max_connections then
      let req_id := wrapInt32 (t.request_counter_ + 1)
      { t with request_counter_ := req_id
               request_queue_ := t.request_queue_ ++
                 [{ id := req_id, data := "请求数据 " ++ toString req_id,
                    timestamp := e.now_request }] }
    else t
  cleanup_timeout_requests e.now_cleanup t1

/-- Where `network_service_execute` stands: before line 299, at the loop test of
`NetworkServiceTask::start` (line 72), in the loop body, or returned. -/
inductive NetworkPC where
  | entry
  | loop_test
  | body
  | returned (code : Int)
  deriving DecidableEq, Repr

/-- The running `network_service_execute`. -/
structure NetworkConfig where
  unit : NetworkServiceWrapper
  pc : NetworkPC
  slept : List Nat
  deriving DecidableEq, Repr

/-- One step of `network_service_execute` (lines 296-310) running
`NetworkServiceTask::start` (lines 63-98). -/
def network_service_execute_step (e : NetworkEnv) (c : NetworkConfig) : NetworkConfig :=
  match c.pc, c.unit.service with
  | .entry, none => { c with pc := .returned (-1) }
  | .entry, some t =>
    { c with unit := { c.unit with service := some { t with running_ := true } },
             pc := .loop_test }
  | .loop_test, some t =>
    if t.running_ then { c with pc := .body } else { c with pc := .returned 0 }
  | .body, some t =>
    { c with
      unit := { c.unit with service := some (network_service_body e t) }
      slept := e.delay_ms :: c.slept
      pc := .loop_test }
  | _, _ => c

/-- Consecutive steps of `network_service_execute`, one for each environment. -/
def network_service_execute_run : List NetworkEnv → NetworkConfig → NetworkConfig
  | [], c => c
  | e :: rest, c => network_service_execute_run rest (network_service_execute_step e c)

/-- A unit record on which stop has been requested: the stop flag of the
`TaskBase` is set and the state is `STOPPING`. -/
def stop_requested : TaskBase :=
  { sample_task with state := .STOPPING, should_stop := true }

/-- The constructor of `SimpleCppTask` (line 18). -/
def SimpleCppTask.new : SimpleCppTask := { running_ := false, iteration_count_ := 0 }

/-- The constructor of `DataProcessorTask` (line 59, with line 489). -/
def DataProcessorTask.new : DataProcessorTask :=
  { running_ := false, process_counter_ := 0, log_callback_ := none }

/-- The constructor of `NetworkServiceTask` (line 40, with the defaults of lines
33-36; `completed_requests_` has no initializer and is taken as 0). -/
def NetworkServiceTask.new : NetworkServiceTask :=
  { config_ := ⟨8080, 100, 4, 30⟩, running_ := false, request_counter_ := 0,
    completed_requests_ := 0, request_queue_ := [], last_cleanup := none }

/-- The C++ example task is alive: its object exists with `should_stop_` clear and
`cpp_task_execute` has not returned. -/
def cpp_live (c : CppConfig) : Prop :=
  (∃ t, c.unit.g_cpp_task = some t ∧ t.should_stop_ = false) ∧
    ∀ code, c.pc ≠ .returned code

/-- The data processor is alive: its object exists and `data_processor_execute`
is at its entry or in the loop with `running_` set. -/
def data_live (c : DataConfig) : Prop :=
  ∃ t, c.unit.processor = some t ∧
    (c.pc = .entry ∨ (t.running_ = true ∧ ∀ code, c.pc ≠ .returned code))

/-- The network service is alive: its object exists and `network_service_execute`
is at its entry or in the loop with `running_` set. -/
def network_live (c : NetworkConfig) : Prop :=
  ∃ t, c.unit.service = some t ∧
    (c.pc = .entry ∨ (t.running_ = true ∧ ∀ code, c.pc ≠ .returned code))

/-! ## Sleeps between two tests of the stop condition -/

/-- The sleeps a step has added: what stands in `after` in front of `before`
(the traces grow at the head). -/
def new_sleeps (before after : List Nat) : List Nat :=
  after.take (after.length - before.length)

/-- Every sleep added between `before` and `after` lasts at most `limit`
milliseconds. -/
def sleeps_within (limit : Nat) (before after : List Nat) : Bool :=
  (new_sleeps before after).all (fun d => decide (d ≤ limit))

/-! ## `example_process.c`: the remaining read-only parts -/

/-- `ProcessInfo` of `process_interface.h`. -/
structure ProcessInfo where
  name : String
  version : String
  description : String
  priority : Nat
  restart_count : Nat
  auto_restart : Bool
  deriving DecidableEq, Repr

/-- `ProcessInterface` of `process_interface.h`: nine function pointers. A
function pointer is kept as the name of the function it points to, `none` for
`NULL`. The slot the header calls `initialize` is the field `initialize_fn`. -/
structure ProcessInterface where
  get_process_info : Option String
  initialize_fn : Option String
  start : Option String
  stop : Option String
  cleanup : Option String
  get_state : Option String
  get_stats : Option String
  handle_signal : Option String
  health_check : Option String
  deriving DecidableEq, Repr

namespace ExampleProcess

/-- The static `g_process_info` (lines 18-25); no function writes it. -/
def g_process_info : ProcessInfo :=
  { name := "example_process", version := "1.0.0",
    description := "Example process plugin for demonstration",
    priority := 1, restart_count := 3, auto_restart := true }

/-- The static `g_interface` (lines 214-224). -/
def g_interface : ProcessInterface :=
  { get_process_info := some "get_process_info"
    initialize_fn := some "initialize"
    start := some "start"
    stop := some "stop"
    cleanup := some "cleanup"
    get_state := some "get_state"
    get_stats := some "get_stats"
    handle_signal := some "handle_signal"
    health_check := some "health_check" }

/-- The exported function `get_process_interface` (lines 229-231): the address of
the static table, given as the table itself (`none` would be `NULL`). It takes
no argument; the globals are passed to make its independence of them a
statement. -/
def get_process_interface (_p : Plugin) : Option ProcessInterface := some g_interface

/-- The function `health_check` (lines 203-211): the result and the globals
after the call. -/
def health_check (p : Plugin) : Bool × Plugin :=
  (((p.g_state == .RUNNING) && !p.g_should_stop) || (p.g_state == .STOPPED), p)

/-- The function `get_state` (lines 175-180): the result and the globals after
the call. -/
def get_state (p : Plugin) : ProcessState × Plugin := (p.g_state, p)

end ExampleProcess

/-! ## `task_interface.h`: the capability table and `TASK_CALL` -/

/-- `TaskInterface` of `task_interface.h`: eight function pointers. A function
pointer is kept as the name of the function it points to, `none` for `NULL`.
The slot the header calls `initialize` is the field `initialize_fn`. -/
structure TaskInterface where
  initialize_fn : Option String
  execute : Option String
  cleanup : Option String
  pause : Option String
  resume : Option String
  handle_signal : Option String
  health_check : Option String
  get_status : Option String
  deriving DecidableEq, Repr

/-- The macro `TASK_CALL(task, method, ...)` of `task_interface.h` (lines
223-225): `vtable` is `(task)->vtable` (`none` for `NULL`), `method` selects the
slot, `call f` is what a call through the function pointer `f` with the given
arguments does to the unit and returns. With the table or the slot missing the
value is -1 and nothing is called. -/
def TASK_CALL {α : Type} (vtable : Option TaskInterface)
    (method : TaskInterface → Option String) (call : String → α → Int × α)
    (task : α) : Int × α :=
  match vtable with
  | none => (-1, task)
  | some vt =>
    match method vt with
    | none => (-1, task)
    | some f => call f task

/-- The table `example_task_vtable` of `example_task.c` (lines 238-247). -/
def example_task_vtable : TaskInterface :=
  { initialize_fn := some "example_task_initialize"
    execute := some "example_task_execute"
    cleanup := some "example_task_cleanup"
    pause := some "example_task_pause"
    resume := some "example_task_resume"
    handle_signal := some "example_task_handle_signal"
    health_check := some "example_task_health_check"
    get_status := some "example_task_get_status" }

/-- The table `cpp_task_vtable` of `cpp_example_task.cpp` (lines 232-241). -/
def cpp_task_vtable : TaskInterface :=
  { initialize_fn := some "cpp_task_initialize"
    execute := some "cpp_task_execute"
    cleanup := some "cpp_task_cleanup"
    pause := none
    resume := none
    handle_signal := some "cpp_task_handle_signal"
    health_check := some "cpp_task_health_check"
    get_status := some "cpp_task_get_status" }

/-- The table `simple_cpp_task_vtable` of `simple_cpp_task.cpp` (lines 133-142). -/
def simple_cpp_task_vtable : TaskInterface :=
  { initialize_fn := some "simple_cpp_task_initialize"
    execute := some "simple_cpp_task_execute"
    cleanup := some "simple_cpp_task_cleanup"
    pause := none
    resume := none
    handle_signal := none
    health_check := some "simple_cpp_task_health_check"
    get_status := some "simple_cpp_task_get_status" }

/-- The table `data_processor_vtable` of `data_processor_task.cpp` (lines
562-571). -/
def data_processor_vtable : TaskInterface :=
  { initialize_fn := some "data_processor_initialize"
    execute := some "data_processor_execute"
    cleanup := some "data_processor_cleanup"
    pause := none
    resume := none
    handle_signal := none
    health_check := some "data_processor_health_check"
    get_status := some "data_processor_get_status" }

/-- The table `network_service_vtable` of `network_service_task.cpp` (lines
340-349). -/
def network_service_vtable : TaskInterface :=
  { initialize_fn := some "network_service_initialize"
    execute := some "network_service_execute"
    cleanup := some "network_service_cleanup"
    pause := none
    resume := none
    handle_signal := none
    health_check := some "network_service_health_check"
    get_status := some "network_service_get_status" }

/-! ## C strings and output buffers -/

/-- The bytes of a text in UTF-8, the encoding of the source files. -/
def utf8 (s : String) : List Nat :=
  s.data.flatMap (fun c => (String.utf8EncodeChar c).map (fun b => b.toNat))

/-- Memory after `new` has been written at its start. -/
def write_prefix (new old : List Nat) : List Nat := new ++ old.drop new.length

/-- The C string held in a `char` array: the bytes before its first 0 byte. An
array without a 0 byte holds no C string; the value is then the whole array. -/
def c_str (a : List Nat) : List Nat := a.takeWhile (fun b => b != 0)

/-- A `char` array of `n` bytes set by an initialiser with the text `s`: the
bytes of the text, then 0 bytes. -/
def char_array (n : Nat) (s : String) : List Nat :=
  utf8 s ++ List.replicate (n - (utf8 s).length) 0

/-- The C library call `strcpy(dst, text)`, with `text` the bytes of the source
string: the text and a terminating 0 are written at the start of `dst`, and the
bytes behind them are left as they are. -/
def strcpy (dst text : List Nat) : List Nat := write_prefix (text ++ [0]) dst

/-- The C library call `strncpy(dst, src, n)`, byte by byte, with `src` the
bytes of the source array: bytes of `src` are copied until `n` bytes are written
or a 0 byte is met, and from a 0 byte on 0 bytes are written until `n` bytes
are written. When the first `n` bytes of `src` hold no 0, no 0 is written. The
bytes of `dst` from index `n` on are not touched. With `n` at most the size of
`dst` and `src` an array of more than `n` bytes, as at line 51 of
`example_task.c`, neither list runs out before `n` bytes are written or a 0 is
met; the cases of an empty list stand for a call outside these bounds. -/
def strncpy : List Nat → List Nat → Nat → List Nat
  | dst, _, 0 => dst
  | [], _, _ + 1 => []
  | _ :: dst, [], n + 1 => 0 :: strncpy dst [] n
  | _ :: dst, c :: src, n + 1 =>
    if c = 0 then 0 :: strncpy dst [] n else c :: strncpy dst src n

/-- The C library call `snprintf(buffer, size, ...)` for `size ≥ 1`, with `text`
the bytes of the formatted output: the first `size - 1` bytes of the text and
a terminating 0 are written; the result is the length of the whole text (-1
when that exceeds `INT_MAX`). -/
def snprintf (old : List Nat) (size : Nat) (text : List Nat) : Int × List Nat :=
  (if text.length ≤ 2147483647 then (text.length : Int) else -1,
   write_prefix (text.take (size - 1) ++ [0]) old)

/-- The common tail of the four C++ `get_status` wrappers, for `size ≥ 1`:
`strncpy(buffer, status.c_str(), size - 1)` writes exactly `size - 1` bytes (the
text, cut or padded with 0), `buffer[size - 1] = 0` one more, and the result is
`static_cast<int>(status.length())`. -/
def strncpy_status (old : List Nat) (size : Nat) (text : List Nat) : Int × List Nat :=
  (wrapInt32 (text.length : Int),
   write_prefix
     (text.take (size - 1) ++ List.replicate (size - 1 - text.length) 0 ++ [0]) old)

/-- The number of bytes of the text that end up in a buffer of `size ≥ 1` bytes,
the terminating 0 not counted. -/
def text_bytes_written (size : Nat) (text : List Nat) : Nat := min text.length (size - 1)

/-! ## `example_task.c`: the other capability operations -/

/-- The function `example_task_initialize` (lines 40-63). The custom
configuration is read as an `ExampleTaskConfig` (a `void*` of another kind is
not a valid argument and leaves the three fields as they are). Line 51 is
`strncpy(task->message, config->message, sizeof(task->message) - 1)`, a copy of
255 bytes into the 256-byte array; nothing in the function writes
`message[255]`. Line 56 is a `strcpy` of the default text. -/
def example_task_initialize (task : ExampleTask) : Int × ExampleTask :=
  let task1 :=
    match task_get_custom_config task.base with
    | some (.example_task config) =>
      { task with work_interval := config.work_interval
                  use_random_delay := config.use_random_delay
                  message := strncpy task.message config.message 255 }
    | some (.text _) => task
    | none =>
      { task with work_interval := 5, use_random_delay := false,
                  message := strcpy task.message (utf8 "Hello from example task!") }
  (0, { task1 with counter := 0 })

/-- A sample example task: `sample_task` with the defaults set by
`example_task_initialize` when no custom configuration is given (lines 54-59),
on a message array that held 0 bytes before. -/
def sample_example_task : ExampleTask :=
  { base := sample_task, work_interval := 5, counter := 0,
    message := strcpy (List.replicate 256 0) (utf8 "Hello from example task!"),
    use_random_delay := false }

/-- The function `example_task_cleanup` (lines 110-120). -/
def example_task_cleanup (task : ExampleTask) : ExampleTask := { task with counter := 0 }

/-- The function `example_task_pause` (lines 125-134). -/
def example_task_pause (task : ExampleTask) : Int × ExampleTask := (0, task)

/-- The function `example_task_resume` (lines 139-148). -/
def example_task_resume (task : ExampleTask) : Int × ExampleTask := (0, task)

/-- The function `example_task_handle_signal` (lines 153-166). -/
def example_task_handle_signal (signal : Int) (task : ExampleTask) : ExampleTask :=
  if signal = SIGTERM ∨ signal = SIGINT then
    { task with base := { task.base with should_stop := true } }
  else task

/-- The function `example_task_health_check` (lines 171-192), with `now` the
value of `time(NULL)`: the result and the unit after the call. The difference
of the two `uint64_t` times is taken modulo `2^64`; `work_interval * 3` is an
`int` product, converted to `uint64_t` for the comparison. -/
def example_task_health_check (now : Nat) (task : ExampleTask) : Bool × ExampleTask :=
  let current_time := toU64 (now : Int)
  let healthy :=
    if task.base.state = .RUNNING then
      if toU64 ((current_time : Int) - (task.base.stats.last_heartbeat : Int))
          > toU64 (wrapInt32 (task.work_interval * 3)) then false
      else true
    else true
  (healthy, task)

/-- The bytes of the text that `example_task_get_status` formats (lines
207-227). `%s` prints the C string in `message`, the bytes before its first 0;
for an array without a 0 byte the call reads past the array, which C leaves
undefined, and the text here then holds the 256 bytes of the array. -/
def example_task_status_text (task : ExampleTask) : List Nat :=
  utf8 ("=== 示例任务状态 ===\n" ++
    "任务名称: " ++ task.base.config.name ++ "\n" ++
    "状态: " ++ (if task.base.state = .RUNNING then "运行中" else "已停止") ++ "\n" ++
    "执行次数: " ++ toString task.counter ++ "\n" ++
    "工作间隔: " ++ toString task.work_interval ++ "秒\n" ++
    "使用随机延迟: " ++ (if task.use_random_delay then "是" else "否") ++ "\n" ++
    "消息: ") ++
  c_str task.message ++
  utf8 ("\n" ++
    "运行时间: " ++ toString task.base.stats.total_run_time ++ "秒\n" ++
    "CPU使用率: " ++ toString task.base.stats.cpu_usage ++ "%\n" ++
    "内存使用: " ++ toString task.base.stats.memory_usage ++ " bytes\n" ++
    "最后心跳: " ++ toString task.base.stats.last_heartbeat ++ "\n")

/-- The function `example_task_get_status` (lines 197-233): `buffer` is the memory
behind the pointer (`none` for `NULL`). The result, the unit after the call and
the memory after the call. -/
def example_task_get_status (task : ExampleTask) (buffer : Option (List Nat))
    (size : Nat) : Int × ExampleTask × Option (List Nat) :=
  match buffer with
  | none => (-1, task, none)
  | some old =>
    if size = 0 then (-1, task, some old)
    else
      let r := snprintf old size (example_task_status_text task)
      (r.1, task, some r.2)

/-! ## `get_status` of the C++ units -/

/-- The method `CppExampleTask::get_status` (lines 130-134). -/
def CppExampleTask.get_status (t : CppExampleTask) : String :=
  "C++任务状态: 运行中, 执行次数: " ++ toString t.counter_ ++
    ", 工作间隔: " ++ toString t.work_interval_ ++ "秒"

/-- The function `cpp_task_get_status` (lines 217-229). -/
def cpp_task_get_status (w : CppTaskWrapper) (buffer : Option (List Nat)) (size : Nat) :
    Int × CppTaskWrapper × Option (List Nat) :=
  match w.g_cpp_task, buffer with
  | some t, some old =>
    if size = 0 then (-1, w, some old)
    else
      let r := strncpy_status old size (utf8 t.get_status)
      (r.1, w, some r.2)
  | _, _ => (-1, w, buffer)

/-- The method `SimpleCppTask::get_status` (lines 56-60). -/
def SimpleCppTask.get_status (t : SimpleCppTask) : String :=
  "C++ Task - Running: " ++ (if t.running_ then "Yes" else "No") ++
    ", Iterations: " ++ toString t.iteration_count_

/-- The function `simple_cpp_task_get_status` (lines 119-131). -/
def simple_cpp_task_get_status (w : SimpleCppTaskWrapper) (buffer : Option (List Nat))
    (size : Nat) : Int × SimpleCppTaskWrapper × Option (List Nat) :=
  match w.task, buffer with
  | some t, some old =>
    if size = 0 then (-1, w, some old)
    else
      let r := strncpy_status old size (utf8 t.get_status)
      (r.1, w, some r.2)
  | _, _ => (-1, w, buffer)

/-- The function `data_processor_get_status` (lines 548-560), with `status` the
text that `DataProcessorTask::get_status` returns (it reports queue sizes and
statistics that are not part of this model). -/
def data_processor_get_status (w : DataProcessorWrapper) (status : String)
    (buffer : Option (List Nat)) (size : Nat) :
    Int × DataProcessorWrapper × Option (List Nat) :=
  match w.processor, buffer with
  | some _, some old =>
    if size = 0 then (-1, w, some old)
    else
      let r := strncpy_status old size (utf8 status)
      (r.1, w, some r.2)
  | _, _ => (-1, w, buffer)

/-- The function `network_service_get_status` (lines 326-338), with `status` the
text that `NetworkServiceTask::get_status` returns. -/
def network_service_get_status (w : NetworkServiceWrapper) (status : String)
    (buffer : Option (List Nat)) (size : Nat) :
    Int × NetworkServiceWrapper × Option (List Nat) :=
  match w.service, buffer with
  | some _, some old =>
    if size = 0 then (-1, w, some old)
    else
      let r := strncpy_status old size (utf8 status)
      (r.1, w, some r.2)
  | _, _ => (-1, w, buffer)

/-! ## The health reports of the C++ demos -/

/-- The three lines that `print_task_status` of `cpp_task_demo.cpp` prints (lines
70-78). -/
def print_task_status : List String :=
  ["\n=== 任务管理器状态 ===\n", "任务状态查询功能开发中...\n", "========================\n"]

/-- Lines 112-116 of `simple_cpp_demo.cpp`: what is printed when
`task_manager_health_check` has returned `unhealthy`. A C `if` takes the branch
when the value is not 0. -/
def simple_cpp_demo_health_report (unhealthy : Int) : List String :=
  if unhealthy ≠ 0 then ["✅ 任务健康状态正常\n"]
  else ["⚠️  检测到任务健康状态异常\n"]

/-- Lines 139-142 of `cpp_task_demo.cpp` (`run_cpp_task_demo`): what is printed
when `task_manager_health_check` has returned `unhealthy`. -/
def run_cpp_task_demo_health_report (unhealthy : Int) : List String :=
  if unhealthy = 0 then "⚠️  检测到任务健康状态异常\n" :: print_task_status
  else []

/-- Lines 260-265 of `cpp_task_demo.cpp` (`run_interactive_demo`, menu choice 2):
what is printed when `task_manager_health_check` has returned `unhealthy`. -/
def run_interactive_demo_health_report (unhealthy : Int) : List String :=
  if unhealthy ≠ 0 then ["✓ 所有任务健康状态正常\n"]
  else "⚠️  检测到任务健康状态异常\n" :: print_task_status

/-- The messages of the three demos that say the tasks are healthy. -/
def health_normal_messages : List String :=
  ["✅ 任务健康状态正常\n", "✓ 所有任务健康状态正常\n"]

/-- The message of the three demos that says a task is unhealthy. -/
def health_abnormal_message : String := "⚠️  检测到任务健康状态异常\n"

/-- A report says "healthy": it holds one of the normal messages. -/
def says_normal (report : List String) : Bool :=
  report.any (fun m => health_normal_messages.contains m)

/-- A report says "unhealthy": it holds the abnormal message. -/
def says_abnormal (report : List String) : Bool :=
  report.contains health_abnormal_message

/-! ## The health check of the example task, as stated -/

/-- The unit `after` is bound to the same capability table as `before` and has the
same configuration record. -/
def keeps_binding (before after : ExampleTask) : Prop :=
  after.base.vtable = before.base.vtable ∧ after.base.config = before.base.config

/-- The other threads of a turn leave the table pointer and the configuration of
the base record alone. -/
def turn_keeps_binding (t : ExecTurn) : Prop :=
  ∀ b : TaskBase, (t.others b).vtable = b.vtable ∧ (t.others b).config = b.config

namespace ExampleProcess

/-- Lines 58-71 of `initialize`: the entry check and, when it passes, the switch
to `INITIALIZING` with the callback stored, the stop flag cleared and the
statistics set to zero except for `start_time`, which takes `time(NULL)`. -/
def initialize_entry (now : Nat) (log_callback : Option Nat) (p : Plugin) :
    Except Int Plugin :=
  if p.g_state ≠ .STOPPED then .error (-1)
  else
    .ok { g_state := .INITIALIZING, g_should_stop := false, g_log_callback := log_callback,
          g_stats := { start_time := toU64 (now : Int), run_time := 0, cpu_usage := 0,
                       memory_usage := 0, restart_times := 0 } }

/-- Line 83 of `initialize`: after the `sleep(1)` the state goes back to
`STOPPED`. -/
def initialize_exit (p : Plugin) : Plugin := { p with g_state := .STOPPED }

/-- The function `cleanup` (lines 162-170). -/
def cleanup (p : Plugin) : Plugin :=
  { p with g_state := .STOPPED, g_should_stop := true, g_log_callback := none }

end ExampleProcess

/-- The function `initialize` of `example_process.c` (lines 57-88): the returned
code and the globals at return. The mutex is held from the entry check to line
84, so `start`, `stop`, `cleanup` and another `initialize` cannot write in
between; `handle_signal` takes no lock, and `signals` are the signals it
handles during the `sleep(1)` of line 81. `config_data` is only logged. -/
def ExampleProcess.initialize (now : Nat) (signals : List Int)
    (_config_data : Option String) (log_callback : Option Nat) (p : Plugin) :
    Int × Plugin :=
  match ExampleProcess.initialize_entry now log_callback p with
  | .error code => (code, p)
  | .ok p1 =>
    (0, ExampleProcess.initialize_exit
          (signals.foldl (fun q sig => ExampleProcess.handle_signal sig q) p1))

/-! ## `example_process.c`: every write of the lifecycle state -/

/-- The atomic steps of the plugin's operations, whichever thread takes them:
the two sections of `initialize` (lines 58-71 and line 83), the three of `start`
(lines 94-103, one loop pass of lines 111-119, lines 126-128), the entry section
of `stop` (lines 138-147; its wait loop only reads), `cleanup`,
`handle_signal`, `get_state` and `health_check`. -/
inductive PluginOp where
  | initialize_begin (now : Nat) (log_callback : Option Nat)
  | initialize_finish
  | start_begin
  | start_pass (now : Nat) (cycle_count : Int)
  | start_finish
  | stop_begin
  | cleanup
  | handle_signal (sig : Int)
  | get_state
  | health_check

/-- The effect of one atomic step on the globals. An entry section whose check
fails changes nothing. The finishing steps are applied whether or not the
operation is under way, which only adds behaviours. -/
def apply_op : PluginOp → Plugin → Plugin
  | .initialize_begin now log_callback, p =>
    match ExampleProcess.initialize_entry now log_callback p with
    | .error _ => p
    | .ok p1 => p1
  | .initialize_finish, p => ExampleProcess.initialize_exit p
  | .start_begin, p =>
    match ExampleProcess.start_entry p with
    | .error _ => p
    | .ok p1 => p1
  | .start_pass now cycle_count, p => (ExampleProcess.start_body now cycle_count p).2
  | .start_finish, p => ExampleProcess.start_exit p
  | .stop_begin, p =>
    match ExampleProcess.stop_entry p with
    | .error _ => p
    | .ok p1 => p1
  | .cleanup, p => ExampleProcess.cleanup p
  | .handle_signal sig, p => ExampleProcess.handle_signal sig p
  | .get_state, p => (ExampleProcess.get_state p).2
  | .health_check, p => (ExampleProcess.health_check p).2

/-- The effect of a sequence of atomic steps, from left to right. -/
def apply_ops : List PluginOp → Plugin → Plugin
  | [], p => p
  | op :: ops, p => apply_ops ops (apply_op op p)

/-- The lifecycle state is one of `STOPPED`, `INITIALIZING`, `RUNNING`,
`STOPPING`. -/
def lifecycle_ok (s : ProcessState) : Bool :=
  s == .STOPPED || s == .INITIALIZING || s == .RUNNING || s == .STOPPING

/-! ## `simple_cpp_task.cpp`: the other operations -/

/-- The method `SimpleCppTask::stop` (lines 45-50). -/
def SimpleCppTask.stop (t : SimpleCppTask) : SimpleCppTask :=
  if t.running_ then { t with running_ := false } else t

/-- The method `SimpleCppTask::health_check` (lines 52-54). -/
def SimpleCppTask.health_check (t : SimpleCppTask) : Bool := t.running_

/-- The function `simple_cpp_task_health_check` (lines 114-117): the result and
the unit after the call. -/
def simple_cpp_task_health_check (w : SimpleCppTaskWrapper) : Bool × SimpleCppTaskWrapper :=
  (match w.task with
   | some t => t.health_check
   | none => false, w)

/-- The function `simple_cpp_task_cleanup` (lines 105-112): `stop()` on the
object, then the pointer is reset, which destroys the object. -/
def simple_cpp_task_cleanup (w : SimpleCppTaskWrapper) : SimpleCppTaskWrapper :=
  match w.task with
  | some _ => { w with task := none }
  | none => w

/-- Steps of `simple_cpp_task_execute`, each one preceded, where the list says
`true`, by a call of `SimpleCppTask::stop` from another thread. -/
def simple_cpp_task_execute_sched : List Bool → SimpleConfig → SimpleConfig
  | [], c => c
  | stop_first :: rest, c =>
    simple_cpp_task_execute_sched rest
      (simple_cpp_task_execute_step
        (if stop_first then
          { c with unit := { c.unit with task := c.unit.task.map SimpleCppTask.stop } }
         else c))

/-- An upper bound on the steps `simple_cpp_task_execute` still takes. -/
def simple_potential (c : SimpleConfig) : Nat :=
  match c.pc, c.unit.task with
  | .entry, some t => 2 * (100 - t.iteration_count_).toNat + 2
  | .entry, none => 1
  | .loop_test, some t => 2 * (100 - t.iteration_count_).toNat + 1
  | .body, some t => 2 * (100 - t.iteration_count_).toNat
  | _, _ => 0

/-- What holds all through a call of `simple_cpp_task_execute` that began with
iteration count `n` and an empty sleep trace: the object exists, its count is
`n` plus the iterations done (one sleep each), the count is at most 100 and
below 100 inside the loop body, and a return is a return of 0. -/
def simple_inv (n : Int) (c : SimpleConfig) : Prop :=
  ∃ t, c.unit.task = some t ∧
    t.iteration_count_ = n + c.slept.length ∧
    t.iteration_count_ ≤ 100 ∧
    -2 ^ 31 ≤ n ∧
    (c.pc = .body → t.iteration_count_ < 100) ∧
    (∀ code, c.pc = .returned code → code = 0)

end StartTool

/-! # Theorems -/

namespace StartTool

namespace ExampleProcess

/-- C1: in every state other than `STOPPED`, `start` returns the non-zero code -1
at its entry check, for every environment (also the empty one: the loop is
never entered), and the globals (state, stop flag, statistics, log callback)
are exactly as before; as a thread, its first step already is the return. -/
theorem start_fails_unless_stopped (p : Plugin) (env : List LoopEnv)
    (h : p.g_state ≠ .STOPPED) :
    start env p = some (-1, p) ∧ ((-1 : Int) ≠ 0) ∧
    ∀ (now : Nat) (spc : StopPC) (slept : List Nat),
      start_step now ⟨p, .entry, spc, slept⟩ = ⟨p, .returned (-1), spc, slept⟩ := by
  refine ⟨?_, by decide, ?_⟩
  · simp [start, start_entry, h]
  · intro now spc slept
    simp [start_step, start_entry, h]

/-- C1, at a concrete input: `start` called while the state is `RUNNING`. -/
theorem start_fails_unless_stopped_witness :
    start [] { Plugin.initial with g_state := .RUNNING }
      = some (-1, { Plugin.initial with g_state := .RUNNING }) :=
  (start_fails_unless_stopped { Plugin.initial with g_state := .RUNNING } []
    (by decide)).1

/-- C2: `stop` returns -1 without touching the globals when the state on entry is
not `RUNNING`; when it is `RUNNING` the entry section sets the stop flag and the
state `STOPPING` and only then the wait begins (the thread moves to `waiting`),
and any return is then 0. So a returned code is non-zero exactly when the state
on entry was not `RUNNING`. -/
theorem stop_entry_check (p : Plugin) (spc : StartPC) (slept : List Nat) :
    (∀ env, stop env p =
      if p.g_state = .RUNNING then
        (stop_wait env { p with g_state := .STOPPING, g_should_stop := true }).map
          (fun q => ((0 : Int), q))
      else some (-1, p)) ∧
    (∀ env r, stop env p = some r → (r.1 ≠ 0 ↔ p.g_state ≠ .RUNNING)) ∧
    stop_step ⟨p, spc, .entry, slept⟩ =
      (if p.g_state = .RUNNING then
        ⟨{ p with g_state := .STOPPING, g_should_stop := true }, spc, .waiting, slept⟩
      else ⟨p, spc, .returned (-1), slept⟩) := by
  by_cases h : p.g_state = .RUNNING
  · refine ⟨?_, ?_, ?_⟩
    · intro env
      simp only [stop, stop_entry, h, ne_eq, not_true_eq_false, if_false, if_true]
      cases stop_wait env { p with g_state := .STOPPING, g_should_stop := true } <;> rfl
    · intro env r hr
      simp only [stop, stop_entry, h, ne_eq, not_true_eq_false, if_false] at hr
      cases hw : stop_wait env { p with g_state := .STOPPING, g_should_stop := true } with
      | none => rw [hw] at hr; cases hr
      | some q =>
        rw [hw] at hr
        cases hr
        simp [h]
    · simp [stop_step, stop_entry, h]
  · refine ⟨?_, ?_, ?_⟩
    · intro env
      simp [stop, stop_entry, h]
    · intro env r hr
      simp only [stop, stop_entry, ne_eq, h, not_false_eq_true, if_true] at hr
      cases hr
      simp [h]
    · simp [stop_step, stop_entry, h]

/-- C2, at concrete inputs: in `STOPPED` the call fails and changes nothing; in
`RUNNING`, with the loop ending during the first wait, it returns 0. -/
theorem stop_entry_check_witness :
    stop [] Plugin.initial = some (-1, Plugin.initial) ∧
    stop [start_exit] { Plugin.initial with g_state := .RUNNING }
      = some (0, { Plugin.initial with g_state := .STOPPED, g_should_stop := true }) := by
  refine ⟨?_, ?_⟩
  · rw [(stop_entry_check Plugin.initial .entry []).1 []]
    decide
  · rw [(stop_entry_check { Plugin.initial with g_state := .RUNNING } .entry []).1 [start_exit]]
    decide

/-- Every action preserves `stop_inv`. -/
theorem stop_inv_step (a : Action) (s : System) (h : stop_inv s) :
    stop_inv (step a s) := by
  obtain ⟨p, spc, tpc, slept⟩ := s
  cases a with
  | start_thread now =>
    cases spc with
    | entry =>
      by_cases hs : p.g_state = .STOPPED <;> cases tpc <;>
        simp_all [step, start_step, start_entry, stop_inv]
    | loop_test c =>
      by_cases hf : p.g_should_stop = true <;> cases tpc <;>
        simp_all [step, start_step, stop_inv]
    | body c => cases tpc <;> simp_all [step, start_step, start_body, stop_inv]
    | after_loop => cases tpc <;> simp_all [step, start_step, start_exit, stop_inv]
    | returned code => simpa [step, start_step] using h
  | stop_thread =>
    cases tpc with
    | entry =>
      by_cases hr : p.g_state = .RUNNING <;>
        simp_all [step, stop_step, stop_entry, stop_inv]
    | waiting =>
      by_cases hr : p.g_state = .STOPPING <;>
        simp_all [step, stop_step, stop_inv]
    | returned code => simpa [step, stop_step] using h
  | signal sig =>
    by_cases hsig : sig = SIGTERM ∨ sig = SIGINT <;> cases tpc <;>
      simp_all [step, handle_signal, stop_inv]

/-- Every schedule preserves `stop_inv`. -/
theorem stop_inv_run (acts : List Action) (s : System) (h : stop_inv s) :
    stop_inv (run acts s) := by
  induction acts generalizing s with
  | nil => exact h
  | cons a as ih => exact ih _ (stop_inv_step a s h)

/-- C3: with one thread in `start`, another calling `stop` (not yet past its entry
check), and signals arriving at any moment, under every schedule: once `stop`
has returned 0 the state is `STOPPED` and the thread in `start` has left its
main loop and passed line 127. -/
theorem stop_success_means_stopped (s0 : System) (acts : List Action)
    (h0 : s0.stop_pc = .entry) (h : (run acts s0).stop_pc = .returned 0) :
    (run acts s0).plugin.g_state = .STOPPED ∧ (run acts s0).start_pc = .returned 0 := by
  have hinv : stop_inv (run acts s0) := by
    apply stop_inv_run
    simp [stop_inv, h0]
  simpa [stop_inv, h] using hinv

/-- C3, on a concrete schedule: `start` enters its loop, `stop` is called, the loop
test sees the flag, `start` writes `STOPPED`, and `stop` returns 0. -/
theorem stop_success_means_stopped_witness :
    (run [.start_thread 100, .stop_thread, .start_thread 102, .start_thread 102,
          .stop_thread] ⟨Plugin.initial, .entry, .entry, []⟩).stop_pc = .returned 0 ∧
    (run [.start_thread 100, .stop_thread, .start_thread 102, .start_thread 102,
          .stop_thread] ⟨Plugin.initial, .entry, .entry, []⟩).plugin.g_state = .STOPPED ∧
    (run [.start_thread 100, .stop_thread, .start_thread 102, .start_thread 102,
          .stop_thread] ⟨Plugin.initial, .entry, .entry, []⟩).start_pc = .returned 0 :=
  ⟨by decide, stop_success_means_stopped _ _ rfl (by decide)⟩

/-- C5: `get_interface_version` returns `PROCESS_INTERFACE_VERSION`, which is
`0x00010000` and below `2^32`, whatever the globals hold, and the exact-match
test against the expected constant succeeds. -/
theorem get_interface_version_eq (p : Plugin) :
    get_interface_version p = PROCESS_INTERFACE_VERSION ∧
    PROCESS_INTERFACE_VERSION = 65536 ∧
    PROCESS_INTERFACE_VERSION < 2 ^ 32 ∧
    (get_interface_version p == PROCESS_INTERFACE_VERSION) = true := by
  refine ⟨rfl, rfl, by decide, ?_⟩
  simp [get_interface_version]

end ExampleProcess

/-! ## The loader -/

/-- C4: when the library at the path opens and its `get_interface_version` returns
a value other than `PROCESS_INTERFACE_VERSION`, `process_manager_load_plugin`
returns a non-zero code and the manager, its process list included, is
unchanged, for every name, path and configuration text (and every manager). -/
theorem load_plugin_version_mismatch (dl : String → Option Library) (m : ProcessManager)
    (name library_path config_data : String) (lib : Library) (v : Nat)
    (hopen : dl library_path = some lib) (hv : lib.get_interface_version = some v)
    (hne : v ≠ PROCESS_INTERFACE_VERSION) :
    (process_manager_load_plugin dl m name library_path config_data).1 ≠ 0 ∧
    (process_manager_load_plugin dl m name library_path config_data).2 = m ∧
    (process_manager_load_plugin dl m name library_path config_data).2.process_list
      = m.process_list := by
  unfold process_manager_load_plugin
  by_cases hdup : m.process_list.any (fun n => n.name == name) = true
  · simp [hdup]
  · simp only [hdup, Bool.false_eq_true, if_false, hopen, hv]
    cases lib.get_process_interface with
    | none => simp
    | some iface => simp [hne]

/-- C4, at a concrete input: a library that reports version `0x00020000`. -/
theorem load_plugin_version_mismatch_witness :
    (process_manager_load_plugin (fun _ => some ⟨1, some (some 4096), some 0x00020000⟩)
      ⟨[], false, none⟩ "example_process" "./plugins/example.so" "{}").1 ≠ 0 ∧
    (process_manager_load_plugin (fun _ => some ⟨1, some (some 4096), some 0x00020000⟩)
      ⟨[], false, none⟩ "example_process" "./plugins/example.so" "{}").2.process_list = [] :=
  have h := load_plugin_version_mismatch (fun _ => some ⟨1, some (some 4096), some 0x00020000⟩)
    ⟨[], false, none⟩ "example_process" "./plugins/example.so" "{}"
    ⟨1, some (some 4096), some 0x00020000⟩ 0x00020000 rfl rfl (by decide)
  ⟨h.1, h.2.2⟩

/-! ## The task registry -/

/-- The names after a registration: unchanged when the name is present, the new
name appended otherwise. -/
theorem names_register (m : TaskManager) (task : TaskBase) (name : String) :
    (task_manager_register m task name).2.names =
      if name ∈ m.names then m.names else m.names ++ [name] := by
  unfold task_manager_register TaskManager.names
  by_cases h : m.task_list.any (fun n => n.name == name) = true
  · have hmem : name ∈ m.task_list.map (fun n => n.name) := by
      simp only [List.any_eq_true, beq_iff_eq] at h
      obtain ⟨n, hn, rfl⟩ := h
      exact List.mem_map_of_mem _ hn
    simp [h, hmem]
  · have hmem : name ∉ m.task_list.map (fun n => n.name) := by
      intro hc
      apply h
      simp only [List.mem_map] at hc
      obtain ⟨n, hn, rfl⟩ := hc
      simp only [List.any_eq_true, beq_iff_eq]
      exact ⟨n, hn, rfl⟩
    simp [h, hmem]

/-- C6: registering under a name that is already registered returns the non-zero
code -1 and leaves the whole registry as it was: the same entries in the same
order, the same task count, and the unit found under that name is the same
record as before. -/
theorem register_duplicate_refused (m : TaskManager) (task : TaskBase) (name : String)
    (h : name ∈ m.names) :
    task_manager_register m task name = (-1, m) ∧
    (task_manager_register m task name).1 ≠ 0 ∧
    (task_manager_register m task name).2.task_list = m.task_list ∧
    (task_manager_register m task name).2.task_count = m.task_count ∧
    (∃ first, task_manager_get_task m name = some first ∧
      task_manager_get_task (task_manager_register m task name).2 name = some first) := by
  have hany : m.task_list.any (fun n => n.name == name) = true := by
    simp only [TaskManager.names, List.mem_map] at h
    obtain ⟨n, hn, rfl⟩ := h
    simp only [List.any_eq_true, beq_iff_eq]
    exact ⟨n, hn, rfl⟩
  have heq : task_manager_register m task name = (-1, m) := by
    simp [task_manager_register, hany]
  refine ⟨heq, ?_, ?_, ?_, ?_⟩
  · rw [heq]; simp
  · rw [heq]
  · rw [heq]
  · rw [heq]
    simp only [task_manager_get_task]
    cases hf : m.task_list.find? (fun n => n.name == name) with
    | none =>
      rw [List.find?_eq_none] at hf
      simp only [List.any_eq_true] at hany
      obtain ⟨n, hn, hb⟩ := hany
      exact absurd hb (hf n hn)
    | some n => exact ⟨n.task, rfl, rfl⟩

/-- C6, at a concrete input: a second registration under "alpha". -/
theorem register_duplicate_refused_witness :
    task_manager_register (task_manager_register task_manager_create sample_task "alpha").2
        { sample_task with state := .RUNNING } "alpha"
      = (-1, (task_manager_register task_manager_create sample_task "alpha").2) :=
  (register_duplicate_refused
    (task_manager_register task_manager_create sample_task "alpha").2
    { sample_task with state := .RUNNING } "alpha" (by decide)).1

/-- C7: `task_manager_list_tasks` writes the first `max_count` registered names in
list order and returns how many it wrote, never more than `max_count`; list
order is registration order (a registration appends its name); the result does
not change when the units' records (their lifecycle state included) change; and
after registering "alpha" then "beta" in a new registry the names written are
exactly "alpha", "beta" (capacity at least 2), whatever the two units' records
are or become. -/
theorem list_tasks_registration_order (m : TaskManager) (max_count : Nat) :
    (task_manager_list_tasks m max_count).2 = m.names.take max_count ∧
    (task_manager_list_tasks m max_count).1 = (task_manager_list_tasks m max_count).2.length ∧
    (task_manager_list_tasks m max_count).1 ≤ max_count ∧
    (∀ (task : TaskBase) (name : String),
      (task_manager_register m task name).2.names =
        if name ∈ m.names then m.names else m.names ++ [name]) ∧
    (∀ f : String → TaskBase → TaskBase,
      task_manager_list_tasks (m.update_tasks f) max_count
        = task_manager_list_tasks m max_count) ∧
    (∀ (t1 t2 : TaskBase) (f : String → TaskBase → TaskBase),
      task_manager_list_tasks
        ((task_manager_register (task_manager_register task_manager_create t1 "alpha").2
          t2 "beta").2.update_tasks f) (max_count + 2) = (2, ["alpha", "beta"])) := by
  refine ⟨rfl, rfl, ?_, ?_, ?_, ?_⟩
  · simp only [task_manager_list_tasks, List.length_take, Nat.cast_le]
    exact Nat.min_le_left _ _
  · intro task name
    exact names_register m task name
  · intro f
    simp [task_manager_list_tasks, TaskManager.update_tasks, List.map_map, Function.comp_def]
  · intro t1 t2 f
    simp [task_manager_list_tasks, TaskManager.update_tasks, task_manager_register,
      task_manager_create, List.take]

/-- C7, at a concrete input: the `list` command of `task_demo.c` (capacity 32)
after "alpha", whose unit is then started, and "beta". -/
theorem list_tasks_registration_order_witness :
    task_manager_list_tasks
      ((task_manager_register (task_manager_register task_manager_create sample_task "alpha").2
        sample_task "beta").2.update_tasks
          (fun n t => if n = "alpha" then { t with state := .RUNNING } else t)) 32
      = (2, ["alpha", "beta"]) :=
  (list_tasks_registration_order task_manager_create 30).2.2.2.2.2 sample_task sample_task _

/-! ## Bounded automatic restart -/

/-- No event changes a unit's configuration. -/
theorem unit_step_config (e : UnitEvent) (t : TaskBase) :
    (unit_step e t).config = t.config := by
  cases e with
  | failure =>
    simp only [unit_step]
    split <;> rfl
  | tick healthy init_ok =>
    simp only [unit_step, task_restart]
    split
    · split
      · cases init_ok <;> simp
      · rfl
    · rfl

/-- One event keeps the restart count within the budget. -/
theorem unit_step_bound (e : UnitEvent) (t : TaskBase)
    (h : t.restart_count ≤ t.config.max_restart_count) :
    (unit_step e t).restart_count ≤ t.config.max_restart_count := by
  cases e with
  | failure =>
    simp only [unit_step]
    split <;> exact h
  | tick healthy init_ok =>
    simp only [unit_step, task_restart]
    split
    · rename_i hc
      rw [if_pos ⟨hc.2.1, hc.2.2⟩]
      cases init_ok <;> simp <;> exact hc.2.2
    · exact h

/-- A unit in `error` with its budget used up is not changed by any event. -/
theorem unit_step_exhausted (e : UnitEvent) (t : TaskBase)
    (hs : t.state = .ERROR) (hc : t.restart_count = t.config.max_restart_count) :
    unit_step e t = t := by
  cases e with
  | failure => simp [unit_step, hs]
  | tick healthy init_ok => simp [unit_step, hc]

/-- A unit in `error` with its budget used up is not changed by any sequence of
events. -/
theorem unit_run_exhausted (es : List UnitEvent) (t : TaskBase)
    (hs : t.state = .ERROR) (hc : t.restart_count = t.config.max_restart_count) :
    unit_run es t = t := by
  induction es with
  | nil => rfl
  | cons e es ih => simp only [unit_run, unit_step_exhausted e t hs hc, ih]

/-- The restart count stays within the budget under any sequence of events, and
the configuration stays the same. -/
theorem unit_run_bound (es : List UnitEvent) (t : TaskBase)
    (h : t.restart_count ≤ t.config.max_restart_count) :
    (unit_run es t).restart_count ≤ t.config.max_restart_count ∧
    (unit_run es t).config = t.config := by
  induction es generalizing t with
  | nil => exact ⟨h, rfl⟩
  | cons e es ih =>
    have hb := unit_step_bound e t h
    have hcfg := unit_step_config e t
    have := ih (unit_step e t) (by rw [hcfg]; exact hb)
    simp only [unit_run]
    rw [hcfg] at this
    exact this

/-- C8: for a unit whose restart count is within its budget N (a new unit has
count 0), after any sequence of failures and monitor ticks the count is still
at most N; and when the count has reached N while the unit runs, a further
failure puts the unit in `error` and whatever failures and ticks follow, it
stays in `error` with the count still N. -/
theorem restart_count_bounded (t : TaskBase) (es : List UnitEvent)
    (h : t.restart_count ≤ t.config.max_restart_count) :
    (unit_run es t).restart_count ≤ t.config.max_restart_count ∧
    (unit_run es t).config.max_restart_count = t.config.max_restart_count ∧
    (t.restart_count = t.config.max_restart_count → t.state = .RUNNING →
      (unit_run (.failure :: es) t).state = .ERROR ∧
      (unit_run (.failure :: es) t).restart_count = t.config.max_restart_count) := by
  refine ⟨(unit_run_bound es t h).1, by rw [(unit_run_bound es t h).2], ?_⟩
  intro hc hs
  have hstep : unit_step .failure t = { t with state := .ERROR } := by
    simp [unit_step, hs]
  simp only [unit_run, hstep]
  rw [unit_run_exhausted es { t with state := .ERROR } rfl hc]
  exact ⟨rfl, hc⟩

/-- C8, on a concrete run: budget 2, every run fails. After two restarts the
count is 2; the third failure leaves the unit in `error` with count 2, also
after three more ticks. -/
theorem restart_count_bounded_witness :
    (unit_run [.failure, .tick true true, .failure, .tick true true]
      { sample_task with
        config := { config1 with max_restart_count := 2 }, state := .RUNNING }).restart_count
      = 2 ∧
    (unit_run [.failure, .tick true true, .tick false true, .tick true true]
      (unit_run [.failure, .tick true true, .failure, .tick true true]
        { sample_task with
          config := { config1 with max_restart_count := 2 }, state := .RUNNING })).state
      = .ERROR ∧
    (unit_run [.failure, .tick true true, .tick false true, .tick true true]
      (unit_run [.failure, .tick true true, .failure, .tick true true]
        { sample_task with
          config := { config1 with max_restart_count := 2 },
          state := .RUNNING })).restart_count
      = 2 :=
  ⟨by decide,
   (restart_count_bounded
      (unit_run [.failure, .tick true true, .failure, .tick true true]
        { sample_task with
          config := { config1 with max_restart_count := 2 }, state := .RUNNING })
      [.tick true true, .tick false true, .tick true true] (by decide)).2.2
      (by decide) (by decide)⟩

/-! ## `example_task_execute` and the stop flag -/

/-- C9: with the stop flag set, `example_task_execute` returns 0 at the test of the
main loop, the unit (counter, heartbeat, gauges and all) and the sleeps made
unchanged; in particular a call that finds the flag set on entry returns 0
without a work iteration and without a sleep. In the delay loop the set flag
stops the loop without another sleep and the next test of the main loop returns.
With the flag clear the main loop test does not return but starts an iteration.
Every step makes at most one sleep, of one second, and only after it has read
the flag as clear in the delay loop test. -/
theorem example_task_execute_observes_stop (c : ExecConfig) (e e2 : ExecEnv)
    (h : c.task.base.should_stop = true) :
    (c.pc = .loop_test → example_task_execute_step e c = { c with pc := .returned 0 }) ∧
    (∀ i delay, c.pc = .delay_test i delay →
      example_task_execute_step e c = { c with pc := .loop_test } ∧
      example_task_execute_step e2 (example_task_execute_step e c)
        = { c with pc := .returned 0 }) ∧
    (∀ (t : ExecTurn) (ts : List ExecTurn),
      example_task_execute (t :: ts) c.task = some (0, c.task, [])) ∧
    (∀ (c2 : ExecConfig), c2.pc = .loop_test → c2.task.base.should_stop = false →
      (example_task_execute_step e c2).pc
          = .delay_test 0 (example_task_work e c2.task).2 ∧
      (example_task_execute_step e c2).task.counter = wrapInt32 (c2.task.counter + 1) ∧
      (example_task_execute_step e c2).slept = c2.slept) ∧
    (∀ (c2 : ExecConfig),
      (example_task_execute_step e c2).slept = c2.slept ∨
      ((example_task_execute_step e c2).slept = 1000 :: c2.slept ∧
        task_should_stop c2.task.base = false ∧
        ∃ i delay, c2.pc = .delay_test i delay ∧ i < delay)) := by
  refine ⟨?_, ?_, ?_, ?_, ?_⟩
  · intro hpc
    simp [example_task_execute_step, hpc, task_should_stop, h]
  · intro i delay hpc
    simp [example_task_execute_step, hpc, task_should_stop, h]
  · intro t ts
    simp [example_task_execute, example_task_execute_run, example_task_execute_step,
      task_should_stop, h]
  · intro c2 hpc hflag
    simp [example_task_execute_step, hpc, task_should_stop, hflag, example_task_work]
  · intro c2
    obtain ⟨task, pc, slept⟩ := c2
    cases pc with
    | loop_test =>
      left
      simp only [example_task_execute_step]
      split <;> rfl
    | delay_test i delay =>
      by_cases hc : i < delay ∧ task_should_stop task.base = false
      · right
        simp only [example_task_execute_step, hc, and_self, if_true, true_and]
        exact ⟨i, delay, rfl, hc.1⟩
      · left
        simp only [example_task_execute_step, hc, if_false]
    | returned code => left; rfl

/-- C9, at a concrete input: the sample task with the stop flag set, on entry and
in the middle of a delay. -/
theorem example_task_execute_observes_stop_witness :
    example_task_execute [⟨⟨100, 7⟩, id⟩]
        { sample_example_task with base := { sample_task with should_stop := true } }
      = some (0, { sample_example_task with base := { sample_task with should_stop := true } },
          []) ∧
    example_task_execute_step ⟨100, 7⟩
        ⟨{ sample_example_task with base := { sample_task with should_stop := true } },
          .delay_test 2 5, [1000, 1000]⟩
      = ⟨{ sample_example_task with base := { sample_task with should_stop := true } },
          .loop_test, [1000, 1000]⟩ :=
  ⟨(example_task_execute_observes_stop
      ⟨{ sample_example_task with base := { sample_task with should_stop := true } },
        .loop_test, []⟩ ⟨100, 7⟩ ⟨100, 7⟩ rfl).2.2.1 ⟨⟨100, 7⟩, id⟩ [],
   ((example_task_execute_observes_stop
      ⟨{ sample_example_task with base := { sample_task with should_stop := true } },
        .delay_test 2 5, [1000, 1000]⟩ ⟨100, 7⟩ ⟨100, 7⟩ rfl).2.1 2 5 rfl).1⟩

/-! ## The C++ units and the stop flag of `TaskBase` -/

/-- A step of `cpp_task_execute` keeps a live unit alive. -/
theorem cpp_live_step (c : CppConfig) (h : cpp_live c) :
    cpp_live (cpp_task_execute_step c) := by
  obtain ⟨⟨base, g⟩, pc, slept⟩ := c
  obtain ⟨⟨t, ht, hflag⟩, hpc⟩ := h
  simp only at ht
  subst ht
  cases pc with
  | entry => exact ⟨⟨t, rfl, hflag⟩, by simp [cpp_task_execute_step]⟩
  | loop_test =>
    refine ⟨⟨{ t with counter_ := wrapInt32 (t.counter_ + 1) }, ?_, hflag⟩, ?_⟩
    · simp [cpp_task_execute_step, hflag]
    · simp [cpp_task_execute_step, hflag]
  | delay_test i =>
    refine ⟨⟨t, ?_, hflag⟩, ?_⟩
    · simp only [cpp_task_execute_step]
      split <;> rfl
    · simp only [cpp_task_execute_step]
      split <;> simp
  | returned code => exact absurd rfl (hpc code)

/-- No number of steps of `cpp_task_execute` ends a live unit. -/
theorem cpp_live_run (n : Nat) (c : CppConfig) (h : cpp_live c) :
    cpp_live (cpp_task_execute_run n c) := by
  induction n generalizing c with
  | zero => exact h
  | succ n ih => exact ih _ (cpp_live_step c h)

/-- A step of `data_processor_execute` keeps a live unit alive. -/
theorem data_live_step (now : Nat) (c : DataConfig) (h : data_live c) :
    data_live (data_processor_execute_step now c) := by
  obtain ⟨⟨base, g⟩, pc, slept⟩ := c
  obtain ⟨t, ht, hpc⟩ := h
  simp only at ht
  subst ht
  cases pc with
  | entry =>
    exact ⟨{ t with running_ := true }, rfl, Or.inr ⟨rfl, by simp [data_processor_execute_step]⟩⟩
  | loop_test last_report =>
    rcases hpc with hpc | ⟨hrun, -⟩
    · cases hpc
    · exact ⟨t, by simp [data_processor_execute_step, hrun],
        Or.inr ⟨hrun, by simp [data_processor_execute_step, hrun]⟩⟩
  | body last_report =>
    rcases hpc with hpc | ⟨hrun, -⟩
    · cases hpc
    · exact ⟨t, by simp [data_processor_execute_step],
        Or.inr ⟨hrun, by simp [data_processor_execute_step]⟩⟩
  | returned code =>
    rcases hpc with hpc | ⟨-, hpc⟩
    · cases hpc
    · exact absurd rfl (hpc code)

/-- No sequence of steps of `data_processor_execute` ends a live unit. -/
theorem data_live_run (clock : List Nat) (c : DataConfig) (h : data_live c) :
    data_live (data_processor_execute_run clock c) := by
  induction clock generalizing c with
  | nil => exact h
  | cons now rest ih => exact ih _ (data_live_step now c h)

/-- The loop body of the network service does not write `running_`. -/
theorem network_service_body_running (e : NetworkEnv) (t : NetworkServiceTask) :
    (network_service_body e t).running_ = t.running_ := by
  simp only [network_service_body, cleanup_timeout_requests]
  split <;> split <;> (try split) <;> rfl

/-- A step of `network_service_execute` keeps a live unit alive. -/
theorem network_live_step (e : NetworkEnv) (c : NetworkConfig) (h : network_live c) :
    network_live (network_service_execute_step e c) := by
  obtain ⟨⟨base, g⟩, pc, slept⟩ := c
  obtain ⟨t, ht, hpc⟩ := h
  simp only at ht
  subst ht
  cases pc with
  | entry =>
    exact ⟨{ t with running_ := true }, rfl,
      Or.inr ⟨rfl, by simp [network_service_execute_step]⟩⟩
  | loop_test =>
    rcases hpc with hpc | ⟨hrun, -⟩
    · cases hpc
    · exact ⟨t, by simp [network_service_execute_step, hrun],
        Or.inr ⟨hrun, by simp [network_service_execute_step, hrun]⟩⟩
  | body =>
    rcases hpc with hpc | ⟨hrun, -⟩
    · cases hpc
    · exact ⟨network_service_body e t, by simp [network_service_execute_step],
        Or.inr ⟨by rw [network_service_body_running, hrun],
          by simp [network_service_execute_step]⟩⟩
  | returned code =>
    rcases hpc with hpc | ⟨-, hpc⟩
    · cases hpc
    · exact absurd rfl (hpc code)

/-- No sequence of steps of `network_service_execute` ends a live unit. -/
theorem network_live_run (envs : List NetworkEnv) (c : NetworkConfig)
    (h : network_live c) : network_live (network_service_execute_run envs c) := by
  induction envs generalizing c with
  | nil => exact h
  | cons e rest ih => exact ih _ (network_live_step e c h)

/-- A live data processor has not returned. -/
theorem data_live_not_returned (c : DataConfig) (h : data_live c) (code : Int) :
    c.pc ≠ .returned code := by
  obtain ⟨t, -, hpc⟩ := h
  rcases hpc with hpc | ⟨-, hpc⟩
  · rw [hpc]; simp
  · exact hpc code

/-- A live network service has not returned. -/
theorem network_live_not_returned (c : NetworkConfig) (h : network_live c) (code : Int) :
    c.pc ≠ .returned code := by
  obtain ⟨t, -, hpc⟩ := h
  rcases hpc with hpc | ⟨-, hpc⟩
  · rw [hpc]; simp
  · exact hpc code

/-- The step of `cpp_task_execute` does not read the `TaskBase` record: with another
record in its place the step is the same. -/
theorem cpp_step_base (c : CppConfig) (b : TaskBase) :
    cpp_task_execute_step { c with unit := { c.unit with base := b } } =
      { cpp_task_execute_step c with
        unit := { (cpp_task_execute_step c).unit with base := b } } := by
  obtain ⟨⟨base, g⟩, pc, slept⟩ := c
  cases pc <;> cases g <;> simp only [cpp_task_execute_step]
  all_goals first | rfl | (split <;> rfl)

/-- The step of `simple_cpp_task_execute` does not read the `TaskBase` record. -/
theorem simple_step_base (c : SimpleConfig) (b : TaskBase) :
    simple_cpp_task_execute_step { c with unit := { c.unit with base := b } } =
      { simple_cpp_task_execute_step c with
        unit := { (simple_cpp_task_execute_step c).unit with base := b } } := by
  obtain ⟨⟨base, g⟩, pc, slept⟩ := c
  cases pc <;> cases g <;> simp only [simple_cpp_task_execute_step]
  all_goals first | rfl | (split <;> rfl)

/-- The step of `data_processor_execute` does not read the `TaskBase` record. -/
theorem data_step_base (now : Nat) (c : DataConfig) (b : TaskBase) :
    data_processor_execute_step now { c with unit := { c.unit with base := b } } =
      { data_processor_execute_step now c with
        unit := { (data_processor_execute_step now c).unit with base := b } } := by
  obtain ⟨⟨base, g⟩, pc, slept⟩ := c
  cases pc <;> cases g <;> simp only [data_processor_execute_step]
  all_goals first | rfl | (split <;> rfl)

/-- The step of `network_service_execute` does not read the `TaskBase` record. -/
theorem network_step_base (e : NetworkEnv) (c : NetworkConfig) (b : TaskBase) :
    network_service_execute_step e { c with unit := { c.unit with base := b } } =
      { network_service_execute_step e c with
        unit := { (network_service_execute_step e c).unit with base := b } } := by
  obtain ⟨⟨base, g⟩, pc, slept⟩ := c
  cases pc <;> cases g <;> simp only [network_service_execute_step]
  all_goals first | rfl | (split <;> rfl)

/-- C10 (the code departs from the claim): with the stop flag of the `TaskBase`
record set (`stop_requested`), `execute` of the C++ example task, of the data
processor and of the network service never returns, however many steps are
taken, and `execute` of the simple task passes its next loop test and goes on
to complete an iteration. None of the four loops reads the `TaskBase` record:
every step is the same whatever that record holds. -/
theorem cpp_units_miss_base_stop_flag :
    stop_requested.should_stop = true ∧
    (∀ (n : Nat) (code : Int),
      (cpp_task_execute_run n
        ⟨⟨stop_requested, some CppExampleTask.new⟩, .entry, []⟩).pc ≠ .returned code) ∧
    (simple_cpp_task_execute_run 3
        ⟨⟨stop_requested, some SimpleCppTask.new⟩, .entry, []⟩
      = ⟨⟨stop_requested, some ⟨true, 1⟩⟩, .loop_test, [500]⟩) ∧
    (∀ (clock : List Nat) (code : Int),
      (data_processor_execute_run clock
        ⟨⟨stop_requested, some DataProcessorTask.new⟩, .entry, []⟩).pc ≠ .returned code) ∧
    (∀ (envs : List NetworkEnv) (code : Int),
      (network_service_execute_run envs
        ⟨⟨stop_requested, some NetworkServiceTask.new⟩, .entry, []⟩).pc
          ≠ .returned code) ∧
    (∀ (c : CppConfig) (b : TaskBase),
      (cpp_task_execute_step { c with unit := { c.unit with base := b } }).pc
        = (cpp_task_execute_step c).pc) ∧
    (∀ (c : SimpleConfig) (b : TaskBase),
      (simple_cpp_task_execute_step { c with unit := { c.unit with base := b } }).pc
        = (simple_cpp_task_execute_step c).pc) ∧
    (∀ (now : Nat) (c : DataConfig) (b : TaskBase),
      (data_processor_execute_step now { c with unit := { c.unit with base := b } }).pc
        = (data_processor_execute_step now c).pc) ∧
    (∀ (e : NetworkEnv) (c : NetworkConfig) (b : TaskBase),
      (network_service_execute_step e { c with unit := { c.unit with base := b } }).pc
        = (network_service_execute_step e c).pc) := by
  refine ⟨rfl, ?_, by decide, ?_, ?_, fun c b => by rw [cpp_step_base],
    fun c b => by rw [simple_step_base], fun now c b => by rw [data_step_base],
    fun e c b => by rw [network_step_base]⟩
  · intro n code
    exact (cpp_live_run n _ ⟨⟨CppExampleTask.new, rfl, rfl⟩, by simp⟩).2 code
  · intro clock code
    exact data_live_not_returned _
      (data_live_run clock _ ⟨DataProcessorTask.new, rfl, Or.inl rfl⟩) code
  · intro envs code
    exact network_live_not_returned _
      (network_live_run envs _ ⟨NetworkServiceTask.new, rfl, Or.inl rfl⟩) code

/-! ## Sleeps between two tests of the stop condition -/

/-- A step that leaves the trace as it is adds no sleep. -/
theorem sleeps_within_same (limit : Nat) (l : List Nat) :
    sleeps_within limit l l = true := by
  simp [sleeps_within, new_sleeps]

/-- A step that puts one sleep in front of the trace adds that sleep. -/
theorem sleeps_within_cons (limit d : Nat) (l : List Nat) :
    sleeps_within limit l (d :: l) = decide (d ≤ limit) := by
  simp [sleeps_within, new_sleeps]

/-- C11, as stated, fails: the pass of the plugin's main loop is one `sleep(2)`
between two loop tests, and the pass of the data processor's monitoring loop
one sleep of ten seconds; neither is within one second. -/
theorem sleep_one_second_counterexample :
    sleeps_within 1000 []
      (ExampleProcess.step (.start_thread 102)
        ⟨{ Plugin.initial with g_state := .RUNNING }, .body 0, .entry, []⟩).slept = false ∧
    sleeps_within 1000 []
      (data_processor_execute_step 0
        ⟨⟨sample_task, some { DataProcessorTask.new with running_ := true }⟩,
          .body 0, []⟩).slept = false := by
  decide

/-- C11, amended: a step of a main loop (from one test of the stop condition to
the next) makes no single sleep longer than one second in the example task and
in the C++ example task, than two seconds in the example plugin, than ten
seconds in the data processor. -/
theorem sleep_bounds_per_unit (c : ExecConfig) (e : ExecEnv) (cc : CppConfig)
    (a : ExampleProcess.Action) (s : ExampleProcess.System) (now : Nat) (d : DataConfig) :
    sleeps_within 1000 c.slept (example_task_execute_step e c).slept = true ∧
    sleeps_within 1000 cc.slept (cpp_task_execute_step cc).slept = true ∧
    sleeps_within 2000 s.slept (ExampleProcess.step a s).slept = true ∧
    sleeps_within 10000 d.slept (data_processor_execute_step now d).slept = true := by
  refine ⟨?_, ?_, ?_, ?_⟩
  · obtain ⟨task, pc, slept⟩ := c
    cases pc with
    | loop_test =>
      simp only [example_task_execute_step]
      split <;> exact sleeps_within_same _ _
    | delay_test i delay =>
      simp only [example_task_execute_step]
      split
      · rw [sleeps_within_cons]; decide
      · exact sleeps_within_same _ _
    | returned code => exact sleeps_within_same _ _
  · obtain ⟨⟨base, g⟩, pc, slept⟩ := cc
    cases pc <;> cases g <;> simp only [cpp_task_execute_step]
    all_goals first
      | exact sleeps_within_same _ _
      | (split
         · first | exact sleeps_within_same _ _ | (rw [sleeps_within_cons]; decide)
         · exact sleeps_within_same _ _)
  · obtain ⟨p, spc, tpc, slept⟩ := s
    cases a with
    | start_thread t =>
      cases spc with
      | entry =>
        simp only [ExampleProcess.step, ExampleProcess.start_step]
        split <;> exact sleeps_within_same _ _
      | loop_test c0 =>
        simp only [ExampleProcess.step, ExampleProcess.start_step]
        split <;> exact sleeps_within_same _ _
      | body c0 =>
        simp only [ExampleProcess.step, ExampleProcess.start_step]
        rw [sleeps_within_cons]; decide
      | after_loop => exact sleeps_within_same _ _
      | returned code => exact sleeps_within_same _ _
    | stop_thread =>
      cases tpc with
      | entry =>
        simp only [ExampleProcess.step, ExampleProcess.stop_step]
        split <;> exact sleeps_within_same _ _
      | waiting =>
        simp only [ExampleProcess.step, ExampleProcess.stop_step]
        split <;> exact sleeps_within_same _ _
      | returned code => exact sleeps_within_same _ _
    | signal sig => exact sleeps_within_same _ _
  · obtain ⟨⟨base, g⟩, pc, slept⟩ := d
    cases pc <;> cases g <;> simp only [data_processor_execute_step]
    all_goals first
      | exact sleeps_within_same _ _
      | (rw [sleeps_within_cons]; decide)
      | (split <;> exact sleeps_within_same _ _)

/-! ## Signals -/

/-- C12: for every signal number, after `example_task_handle_signal` and after the
plugin's `handle_signal` the stop flag is the flag before OR "the signal is
`SIGTERM` or `SIGINT`", and nothing else has changed: the result is the input
with only the stop flag replaced, so lifecycle state, restart count and
statistics are as before. -/
theorem handle_signal_sets_stop_flag (sig : Int) (task : ExampleTask) (p : Plugin) :
    (example_task_handle_signal sig task).base.should_stop
      = (task.base.should_stop || decide (sig = SIGTERM ∨ sig = SIGINT)) ∧
    example_task_handle_signal sig task
      = { task with base := { task.base with
            should_stop := (task.base.should_stop || decide (sig = SIGTERM ∨ sig = SIGINT)) } } ∧
    (example_task_handle_signal sig task).base.state = task.base.state ∧
    (example_task_handle_signal sig task).base.restart_count = task.base.restart_count ∧
    (example_task_handle_signal sig task).base.stats = task.base.stats ∧
    (ExampleProcess.handle_signal sig p).g_should_stop
      = (p.g_should_stop || decide (sig = SIGTERM ∨ sig = SIGINT)) ∧
    ExampleProcess.handle_signal sig p
      = { p with g_should_stop := (p.g_should_stop || decide (sig = SIGTERM ∨ sig = SIGINT)) } ∧
    (ExampleProcess.handle_signal sig p).g_state = p.g_state ∧
    (ExampleProcess.handle_signal sig p).g_stats = p.g_stats := by
  by_cases h : sig = SIGTERM ∨ sig = SIGINT
  · simp [example_task_handle_signal, ExampleProcess.handle_signal, h]
  · simp [example_task_handle_signal, ExampleProcess.handle_signal, h]

/-! ## `TASK_CALL` on an unset slot -/

/-- C13, as stated, fails: `pause` called through `TASK_CALL` on the C++ example
task, whose table leaves the slot unset, returns -1, not 0. -/
theorem task_call_unset_counterexample :
    (TASK_CALL (some cpp_task_vtable) (fun vt => vt.pause)
      (fun _ (w : CppTaskWrapper) => (0, w)) ⟨sample_task, some CppExampleTask.new⟩).1 = -1 ∧
    (TASK_CALL (some cpp_task_vtable) (fun vt => vt.pause)
      (fun _ (w : CppTaskWrapper) => (0, w)) ⟨sample_task, some CppExampleTask.new⟩).1 ≠ 0 := by
  decide

/-- C13, amended: when the table leaves the selected slot unset, `TASK_CALL`
calls nothing, leaves the unit as it is and returns -1; the tables of the four
C++ units leave both `pause` and `resume` unset. -/
theorem task_call_unset_slot {α : Type} (vt : TaskInterface)
    (method : TaskInterface → Option String) (call : String → α → Int × α) (task : α)
    (h : method vt = none) :
    TASK_CALL (some vt) method call task = (-1, task) ∧
    (cpp_task_vtable.pause = none ∧ cpp_task_vtable.resume = none) ∧
    (simple_cpp_task_vtable.pause = none ∧ simple_cpp_task_vtable.resume = none) ∧
    (data_processor_vtable.pause = none ∧ data_processor_vtable.resume = none) ∧
    (network_service_vtable.pause = none ∧ network_service_vtable.resume = none) := by
  refine ⟨?_, ⟨rfl, rfl⟩, ⟨rfl, rfl⟩, ⟨rfl, rfl⟩, ⟨rfl, rfl⟩⟩
  simp [TASK_CALL, h]

/-- C13, amended, at a concrete input: `resume` through `TASK_CALL` on the simple
C++ task. -/
theorem task_call_unset_slot_witness :
    TASK_CALL (some simple_cpp_task_vtable) (fun vt => vt.resume)
        (fun _ (w : SimpleCppTaskWrapper) => (0, w)) ⟨sample_task, some SimpleCppTask.new⟩
      = (-1, ⟨sample_task, some SimpleCppTask.new⟩) :=
  (task_call_unset_slot simple_cpp_task_vtable (fun vt => vt.resume)
    (fun _ (w : SimpleCppTaskWrapper) => (0, w)) ⟨sample_task, some SimpleCppTask.new⟩ rfl).1

/-! ## The plugin's capability table and health check -/

namespace ExampleProcess

/-- C17: `get_process_interface` returns a table (not `NULL`), the same one
whatever the globals hold at the time of the call, and each of its nine slots
holds a function. -/
theorem get_process_interface_populated (p q : Plugin) :
    get_process_interface p = some g_interface ∧
    get_process_interface p ≠ none ∧
    get_process_interface p = get_process_interface q ∧
    g_interface.get_process_info.isSome = true ∧
    g_interface.initialize_fn.isSome = true ∧
    g_interface.start.isSome = true ∧
    g_interface.stop.isSome = true ∧
    g_interface.cleanup.isSome = true ∧
    g_interface.get_state.isSome = true ∧
    g_interface.get_stats.isSome = true ∧
    g_interface.handle_signal.isSome = true ∧
    g_interface.health_check.isSome = true := by
  refine ⟨rfl, by simp [get_process_interface], rfl, rfl, rfl, rfl, rfl, rfl, rfl, rfl, rfl, rfl⟩

/-- C20: the plugin's `health_check` returns healthy exactly when the state is
`RUNNING` with the stop flag clear, or the state is `STOPPED`; so it is
unhealthy in `INITIALIZING`, in `STOPPING` and in `RUNNING` with the stop flag
set; and the globals after the call are the globals before. -/
theorem health_check_verdict (p : Plugin) :
    ((health_check p).1 = true ↔
      ((p.g_state = .RUNNING ∧ p.g_should_stop = false) ∨ p.g_state = .STOPPED)) ∧
    (p.g_state = .INITIALIZING → (health_check p).1 = false) ∧
    (p.g_state = .STOPPING → (health_check p).1 = false) ∧
    (p.g_state = .RUNNING → p.g_should_stop = true → (health_check p).1 = false) ∧
    (health_check p).2 = p := by
  obtain ⟨st, flag, cb, stats⟩ := p
  cases st <;> cases flag <;> simp [health_check]

/-- C20, at concrete inputs: healthy when stopped, unhealthy while stopping. -/
theorem health_check_verdict_witness :
    (health_check Plugin.initial).1 = true ∧
    (health_check { Plugin.initial with g_state := .STOPPING, g_should_stop := true }).1
      = false :=
  ⟨(health_check_verdict Plugin.initial).1.2 (Or.inr rfl),
   (health_check_verdict
      { Plugin.initial with g_state := .STOPPING, g_should_stop := true }).2.2.1 rfl⟩

end ExampleProcess

/-! ## `get_status` -/

set_option maxRecDepth 100000 in
/-- C14 (the code departs from the claim): on a 16-byte buffer the simple C++ task
with 100 iterations done returns 40, the length of its whole status text,
while 15 bytes of the text and the terminating 0 are in the buffer; the example
task returns 231 on the same buffer. The returned number is the length of the
text, not the number of bytes written. -/
theorem get_status_returns_text_length :
    (simple_cpp_task_get_status ⟨sample_task, some ⟨true, 100⟩⟩
      (some (List.replicate 16 255)) 16).1 = 40 ∧
    (simple_cpp_task_get_status ⟨sample_task, some ⟨true, 100⟩⟩
      (some (List.replicate 16 255)) 16).2.2
      = some [67, 43, 43, 32, 84, 97, 115, 107, 32, 45, 32, 82, 117, 110, 110, 0] ∧
    text_bytes_written 16 (utf8 (SimpleCppTask.get_status ⟨true, 100⟩)) = 15 ∧
    (example_task_get_status sample_example_task (some (List.replicate 16 255)) 16).1 = 231 ∧
    (example_task_get_status sample_example_task (some (List.replicate 16 255)) 16).2.2
      = some [61, 61, 61, 32, 231, 164, 186, 228, 190, 139, 228, 187, 187, 229, 138, 0] := by
  decide

/-- The unit after `example_task_get_status` is the unit before. -/
theorem example_task_get_status_task (task : ExampleTask) (buffer : Option (List Nat))
    (size : Nat) : (example_task_get_status task buffer size).2.1 = task := by
  cases buffer with
  | none => rfl
  | some old =>
    simp only [example_task_get_status]
    split <;> rfl

/-- C15: `example_task_get_status` leaves the task record as it is (every field:
state, stop flag, restart count, statistics, configuration, counter, work
interval, message, random-delay flag), for every task and every buffer
argument; with a null buffer or size 0 it returns -1 and the memory behind the
buffer is as before. -/
theorem example_task_get_status_frame (task : ExampleTask) (buffer : Option (List Nat))
    (size : Nat) :
    (example_task_get_status task buffer size).2.1 = task ∧
    ((buffer = none ∨ size = 0) →
      (example_task_get_status task buffer size).1 = -1 ∧
      (example_task_get_status task buffer size).2.2 = buffer) := by
  cases buffer with
  | none => simp [example_task_get_status]
  | some old =>
    by_cases hs : size = 0
    · simp [example_task_get_status, hs]
    · simp [example_task_get_status, hs]

/-- C15, at concrete inputs: a null buffer, and a buffer with size 0. -/
theorem example_task_get_status_frame_witness :
    example_task_get_status sample_example_task none 1024 = (-1, sample_example_task, none) ∧
    example_task_get_status sample_example_task (some [7, 7]) 0
      = (-1, sample_example_task, some [7, 7]) := by
  have h1 := example_task_get_status_frame sample_example_task none 1024
  have h2 := example_task_get_status_frame sample_example_task (some [7, 7]) 0
  refine ⟨?_, ?_⟩
  · exact Prod.ext (h1.2 (Or.inl rfl)).1 (Prod.ext h1.1 (h1.2 (Or.inl rfl)).2)
  · exact Prod.ext (h2.2 (Or.inr rfl)).1 (Prod.ext h2.1 (h2.2 (Or.inr rfl)).2)

/-! ## The example task keeps its table and its configuration -/

/-- A step of `example_task_execute` keeps the table pointer and the
configuration. -/
theorem execute_step_keeps_binding (e : ExecEnv) (c : ExecConfig) :
    keeps_binding c.task (example_task_execute_step e c).task := by
  obtain ⟨task, pc, slept⟩ := c
  cases pc with
  | loop_test =>
    simp only [example_task_execute_step]
    split
    · exact ⟨rfl, rfl⟩
    · exact ⟨rfl, rfl⟩
  | delay_test i delay =>
    simp only [example_task_execute_step]
    split <;> exact ⟨rfl, rfl⟩
  | returned code => exact ⟨rfl, rfl⟩

/-- A run of `example_task_execute` keeps the table pointer and the configuration
when the other threads do. -/
theorem execute_run_keeps_binding (turns : List ExecTurn) (c : ExecConfig)
    (h : ∀ t ∈ turns, turn_keeps_binding t) :
    keeps_binding c.task (example_task_execute_run turns c).task := by
  induction turns generalizing c with
  | nil => exact ⟨rfl, rfl⟩
  | cons t ts ih =>
    have hstep := execute_step_keeps_binding t.env c
    have ht := h t (List.mem_cons_self _ _)
    simp only [example_task_execute_run]
    split
    · exact hstep
    · have hrest := ih
        { example_task_execute_step t.env c with
          task := { (example_task_execute_step t.env c).task with
            base := t.others (example_task_execute_step t.env c).task.base } }
        (fun t2 h2 => h t2 (List.mem_cons_of_mem _ h2))
      obtain ⟨hv, hc⟩ := hrest
      obtain ⟨hv0, hc0⟩ := hstep
      obtain ⟨hv1, hc1⟩ := ht (example_task_execute_step t.env c).task.base
      simp only at hv hc
      exact ⟨by rw [hv, hv1, hv0], by rw [hc, hc1, hc0]⟩

/-- C16: each of the eight capability operations of the example task leaves the
unit bound to the same capability table and leaves its configuration record as
it is: `example_task_initialize`, `example_task_execute` (every step, and every
run in which the other threads leave the two alone), `example_task_cleanup`,
`example_task_pause`, `example_task_resume`, `example_task_handle_signal`,
`example_task_health_check` and `example_task_get_status`. -/
theorem example_task_ops_keep_binding (task : ExampleTask) (sig : Int) (now : Nat)
    (e : ExecEnv) (c : ExecConfig) (buffer : Option (List Nat)) (size : Nat) :
    keeps_binding task ( example_task_initialize task).2 ∧
    keeps_binding c.task (example_task_execute_step e c).task ∧
    (∀ turns : List ExecTurn, (∀ t ∈ turns, turn_keeps_binding t) →
      keeps_binding c.task (example_task_execute_run turns c).task) ∧
    keeps_binding task (example_task_cleanup task) ∧
    keeps_binding task (example_task_pause task).2 ∧
    keeps_binding task (example_task_resume task).2 ∧
    keeps_binding task (example_task_handle_signal sig task) ∧
    keeps_binding task (example_task_health_check now task).2 ∧
    keeps_binding task (example_task_get_status task buffer size).2.1 := by
  refine ⟨?_, execute_step_keeps_binding e c,
    fun turns h => execute_run_keeps_binding turns c h,
    ⟨rfl, rfl⟩, ⟨rfl, rfl⟩, ⟨rfl, rfl⟩, ?_, ⟨rfl, rfl⟩, ?_⟩
  · simp only [ example_task_initialize, task_get_custom_config]
    split <;> exact ⟨rfl, rfl⟩
  · simp only [example_task_handle_signal]
    split <;> exact ⟨rfl, rfl⟩
  · rw [example_task_get_status_task task buffer size]
    exact ⟨rfl, rfl⟩

/-! ## The health reports of the C++ demos -/

/-- C18 (the code departs from the claim): with `unhealthy` the number returned by
`task_manager_health_check`, `simple_cpp_demo` and the interactive demo print
the normal message exactly when the number is not 0 and the abnormal message
exactly when it is 0, and `run_cpp_task_demo` prints the abnormal message
exactly when the number is 0 and never a normal one: the reverse of what the
number means. In particular with 0 unhealthy tasks all three report a fault,
and with 1 unhealthy task none does. -/
theorem demo_health_reports_inverted (unhealthy : Int) :
    says_normal (simple_cpp_demo_health_report unhealthy) = decide (unhealthy ≠ 0) ∧
    says_abnormal (simple_cpp_demo_health_report unhealthy) = decide (unhealthy = 0) ∧
    says_normal (run_cpp_task_demo_health_report unhealthy) = false ∧
    says_abnormal (run_cpp_task_demo_health_report unhealthy) = decide (unhealthy = 0) ∧
    says_normal (run_interactive_demo_health_report unhealthy) = decide (unhealthy ≠ 0) ∧
    says_abnormal (run_interactive_demo_health_report unhealthy) = decide (unhealthy = 0) ∧
    says_abnormal (simple_cpp_demo_health_report 0) = true ∧
    says_abnormal (run_cpp_task_demo_health_report 0) = true ∧
    says_abnormal (run_interactive_demo_health_report 0) = true ∧
    says_normal (simple_cpp_demo_health_report 1) = true ∧
    says_abnormal (simple_cpp_demo_health_report 1) = false ∧
    run_cpp_task_demo_health_report 1 = [] ∧
    says_normal (run_interactive_demo_health_report 1) = true ∧
    says_abnormal (run_interactive_demo_health_report 1) = false := by
  refine ⟨?_, ?_, ?_, ?_, ?_, ?_, by decide, by decide, by decide, by decide, by decide,
    by decide, by decide, by decide⟩
  all_goals
    by_cases h : unhealthy = 0
    · subst h; decide
    · simp only [simple_cpp_demo_health_report, run_cpp_task_demo_health_report,
        run_interactive_demo_health_report, h, ne_eq, not_false_eq_true, if_true, if_false,
        decide_True, decide_False]
      decide

/-! ## The health check of the example task -/

/-- A value in the range of `int` is its own wrap. -/
theorem wrapInt32_of_range (x : Int) (h0 : -2 ^ 31 ≤ x) (h1 : x < 2 ^ 31) :
    wrapInt32 x = x := by
  unfold wrapInt32
  omega

namespace ExampleProcess

/-- Signals handled one after the other leave everything but the stop flag as it
is; the flag is set when it was set or one of them is `SIGTERM` or `SIGINT`. -/
theorem handle_signals_fold (signals : List Int) (p : Plugin) :
    signals.foldl (fun q sig => handle_signal sig q) p =
      { p with g_should_stop :=
          (p.g_should_stop || signals.any (fun sig => decide (sig = SIGTERM ∨ sig = SIGINT))) } := by
  induction signals generalizing p with
  | nil => simp
  | cons sig rest ih =>
    simp only [List.foldl_cons, List.any_cons]
    rw [ih]
    by_cases h : sig = SIGTERM ∨ sig = SIGINT
    · simp [handle_signal, h]
    · simp [handle_signal, h]

/-- The whole of `initialize` when the state on entry is `STOPPED`. -/
theorem initialize_of_stopped (now : Nat) (signals : List Int)
    (config_data : Option String) (log_callback : Option Nat) (p : Plugin)
    (h : p.g_state = .STOPPED) :
    ExampleProcess.initialize now signals config_data log_callback p =
      (0, { g_state := .STOPPED,
            g_should_stop := signals.any (fun sig => decide (sig = SIGTERM ∨ sig = SIGINT)),
            g_log_callback := log_callback,
            g_stats := ⟨toU64 (now : Int), 0, 0, 0, 0⟩ }) := by
  simp [ ExampleProcess.initialize, initialize_entry, initialize_exit, h, handle_signals_fold]

/-- The whole of `initialize` when the state on entry is not `STOPPED`. -/
theorem initialize_of_not_stopped (now : Nat) (signals : List Int)
    (config_data : Option String) (log_callback : Option Nat) (p : Plugin)
    (h : p.g_state ≠ .STOPPED) :
    ExampleProcess.initialize now signals config_data log_callback p = (-1, p) := by
  simp [ ExampleProcess.initialize, initialize_entry, h]

/-- C21: `initialize` returns -1 exactly when the state on entry is not `STOPPED`,
and then the globals (state, stop flag, log callback, statistics) are as
before; otherwise it returns 0 with the state `STOPPED` again, the given log
callback stored, every statistic 0 except `start_time` (the clock value), and
the stop flag cleared, unless a `SIGTERM` or `SIGINT` was handled during the
one-second sleep of the call. -/
theorem initialize_contract (now : Nat) (signals : List Int)
    (config_data : Option String) (log_callback : Option Nat) (p : Plugin) :
    (( ExampleProcess.initialize now signals config_data log_callback p).1 = -1 ↔
      p.g_state ≠ .STOPPED) ∧
    (p.g_state ≠ .STOPPED →
      ExampleProcess.initialize now signals config_data log_callback p = (-1, p)) ∧
    (p.g_state = .STOPPED →
      ( ExampleProcess.initialize now signals config_data log_callback p).1 = 0 ∧
      ( ExampleProcess.initialize now signals config_data log_callback p).2.g_state
        = .STOPPED ∧
      ( ExampleProcess.initialize now signals config_data log_callback p).2.g_log_callback
        = log_callback ∧
      ( ExampleProcess.initialize now signals config_data log_callback p).2.g_stats
        = ⟨toU64 (now : Int), 0, 0, 0, 0⟩ ∧
      ( ExampleProcess.initialize now signals config_data log_callback p).2.g_should_stop
        = signals.any (fun sig => decide (sig = SIGTERM ∨ sig = SIGINT)) ∧
      ( ExampleProcess.initialize now [] config_data log_callback p).2.g_should_stop
        = false) := by
  by_cases h : p.g_state = .STOPPED
  · refine ⟨?_, fun hn => absurd h hn, fun _ => ?_⟩
    · rw [initialize_of_stopped now signals config_data log_callback p h]
      simp [h]
    · rw [initialize_of_stopped now signals config_data log_callback p h,
        initialize_of_stopped now [] config_data log_callback p h]
      simp
  · refine ⟨?_, fun _ => initialize_of_not_stopped now signals config_data log_callback p h,
      fun hs => absurd hs h⟩
    rw [initialize_of_not_stopped now signals config_data log_callback p h]
    simp [h]

/-- C21, at concrete inputs: a call in the initial state, and a call while
running. -/
theorem initialize_contract_witness :
    (( ExampleProcess.initialize 1700000000 [] (some "{}") (some 7) Plugin.initial).1 = 0 ∧
      ( ExampleProcess.initialize 1700000000 [] (some "{}") (some 7) Plugin.initial).2.g_state
        = .STOPPED ∧
      ( ExampleProcess.initialize 1700000000 [] (some "{}") (some 7)
        Plugin.initial).2.g_log_callback = some 7) ∧
    ExampleProcess.initialize 1700000000 [] (some "{}") (some 7)
        { Plugin.initial with g_state := .RUNNING }
      = (-1, { Plugin.initial with g_state := .RUNNING }) :=
  have h := (initialize_contract 1700000000 [] (some "{}") (some 7) Plugin.initial).2.2 rfl
  ⟨⟨h.1, h.2.1, h.2.2.1⟩,
   (initialize_contract 1700000000 [] (some "{}") (some 7)
      { Plugin.initial with g_state := .RUNNING }).2.1 (by decide)⟩

/-- C22: `cleanup` takes every state to state `STOPPED`, stop flag set, log
callback cleared, statistics as before; so two states with the same
statistics have the same image, `cleanup` applied twice is `cleanup` applied
once, and an `initialize` that follows returns 0. -/
theorem cleanup_idempotent (p q : Plugin) (now : Nat) (signals : List Int)
    (config_data : Option String) (log_callback : Option Nat) :
    cleanup p = { g_state := .STOPPED, g_should_stop := true, g_log_callback := none,
                  g_stats := p.g_stats } ∧
    (cleanup p).g_state = (cleanup q).g_state ∧
    (cleanup p).g_should_stop = (cleanup q).g_should_stop ∧
    (cleanup p).g_log_callback = (cleanup q).g_log_callback ∧
    (cleanup p).g_stats = p.g_stats ∧
    cleanup (cleanup p) = cleanup p ∧
    ( ExampleProcess.initialize now signals config_data log_callback (cleanup p)).1 = 0 := by
  refine ⟨rfl, rfl, rfl, rfl, rfl, rfl, ?_⟩
  rw [initialize_of_stopped now signals config_data log_callback (cleanup p) rfl]

/-- One atomic step keeps the lifecycle state among the four. -/
theorem lifecycle_ok_step (op : PluginOp) (p : Plugin) (h : lifecycle_ok p.g_state = true) :
    lifecycle_ok (apply_op op p).g_state = true := by
  cases op with
  | initialize_begin now log_callback =>
    by_cases hs : p.g_state = .STOPPED
    · simp [apply_op, initialize_entry, hs, lifecycle_ok]
    · simpa [apply_op, initialize_entry, hs] using h
  | initialize_finish => rfl
  | start_begin =>
    by_cases hs : p.g_state = .STOPPED
    · simp [apply_op, start_entry, hs, lifecycle_ok]
    · simpa [apply_op, start_entry, hs] using h
  | start_pass now cycle_count => exact h
  | start_finish => rfl
  | stop_begin =>
    by_cases hs : p.g_state = .RUNNING
    · simp [apply_op, stop_entry, hs, lifecycle_ok]
    · simpa [apply_op, stop_entry, hs] using h
  | cleanup => rfl
  | handle_signal sig =>
    simp only [apply_op, handle_signal]
    split
    · exact h
    · exact h
  | get_state => exact h
  | health_check => exact h

/-- Every sequence of atomic steps keeps the lifecycle state among the four. -/
theorem lifecycle_ok_run (ops : List PluginOp) (p : Plugin)
    (h : lifecycle_ok p.g_state = true) :
    lifecycle_ok (apply_ops ops p).g_state = true := by
  induction ops generalizing p with
  | nil => exact h
  | cons op rest ih => exact ih _ (lifecycle_ok_step op p h)

/-- C25: from the initial globals (state `STOPPED`), after any sequence of atomic
steps of `initialize`, `start`, `stop`, `cleanup`, `handle_signal`, `get_state`
and `health_check`, the lifecycle state is `STOPPED`, `INITIALIZING`, `RUNNING`
or `STOPPING`, never `UNKNOWN` or `ERROR`; and each of the four does occur. -/
theorem lifecycle_state_invariant (ops : List PluginOp) :
    ((apply_ops ops Plugin.initial).g_state = .STOPPED ∨
      (apply_ops ops Plugin.initial).g_state = .INITIALIZING ∨
      (apply_ops ops Plugin.initial).g_state = .RUNNING ∨
      (apply_ops ops Plugin.initial).g_state = .STOPPING) ∧
    (apply_ops ops Plugin.initial).g_state ≠ .UNKNOWN ∧
    (apply_ops ops Plugin.initial).g_state ≠ .ERROR ∧
    (apply_ops [] Plugin.initial).g_state = .STOPPED ∧
    (apply_ops [.initialize_begin 0 none] Plugin.initial).g_state = .INITIALIZING ∧
    (apply_ops [.initialize_begin 0 none, .initialize_finish, .start_begin]
      Plugin.initial).g_state = .RUNNING ∧
    (apply_ops [.initialize_begin 0 none, .initialize_finish, .start_begin, .stop_begin]
      Plugin.initial).g_state = .STOPPING := by
  have h := lifecycle_ok_run ops Plugin.initial rfl
  revert h
  generalize (apply_ops ops Plugin.initial).g_state = st
  intro h
  refine ⟨?_, ?_, ?_, by decide, by decide, by decide, by decide⟩
  · cases st <;> simp_all [lifecycle_ok]
  · cases st <;> simp_all [lifecycle_ok]
  · cases st <;> simp_all [lifecycle_ok]

end ExampleProcess

/-! ## `example_task_initialize` -/

/-- The array keeps its size under `strncpy`. -/
theorem strncpy_length (dst src : List Nat) (n : Nat) :
    (strncpy dst src n).length = dst.length := by
  induction n generalizing dst src with
  | zero => simp [strncpy]
  | succ n ih =>
    cases dst with
    | nil => simp [strncpy]
    | cons d dst =>
      cases src with
      | nil => simp [strncpy, ih]
      | cons c src =>
        simp only [strncpy]
        split <;> simp [ih]

/-- The bytes that `strncpy` writes, and the bytes it leaves. -/
theorem strncpy_eq (dst src : List Nat) (n : Nat) (h : n ≤ dst.length) :
    strncpy dst src n =
      (c_str src).take n ++ List.replicate (n - (c_str src).length) 0 ++ dst.drop n := by
  induction n generalizing dst src with
  | zero => simp [strncpy]
  | succ n ih =>
    cases dst with
    | nil => simp at h
    | cons d dst =>
      have hn : n ≤ dst.length := by simpa using h
      cases src with
      | nil =>
        have := ih dst [] hn
        simp only [strncpy, this]
        simp [c_str, List.replicate_succ]
      | cons c src =>
        simp only [strncpy]
        by_cases hc : c = 0
        · have := ih dst [] hn
          simp only [hc, if_true, this]
          simp [c_str, List.replicate_succ]
        · simp only [hc, if_false, ih dst src hn]
          simp [c_str, hc, List.takeWhile_cons]

/-- No byte of the C string of an array is 0. -/
theorem c_str_no_zero (a : List Nat) : 0 ∉ c_str a := by
  intro h
  have := List.mem_takeWhile_imp h
  simp at this

/-- The C string of an array that holds bytes without a 0 and then a 0 byte. -/
theorem c_str_append_zero (l r : List Nat) (h : 0 ∉ l) : c_str (l ++ 0 :: r) = l := by
  induction l with
  | nil => simp [c_str]
  | cons a l ih =>
    have ha : a ≠ 0 := fun h0 => h (by simp [h0])
    have hl : 0 ∉ l := fun h0 => h (by simp [h0])
    have := ih hl
    simp only [c_str] at this ⊢
    simp [List.takeWhile_cons, ha, this]

/-- The first bytes of the C string of an array are the first bytes of the array. -/
theorem c_str_take (a : List Nat) (n : Nat) (h : n ≤ (c_str a).length) :
    (c_str a).take n = a.take n := by
  have hp : c_str a <+: a := List.takeWhile_prefix _
  obtain ⟨t, ht⟩ := hp
  conv_rhs => rw [← ht]
  rw [List.take_append_of_le_length h]

/-- The bytes of the default message. -/
theorem utf8_default_message :
    utf8 "Hello from example task!" =
      [72, 101, 108, 108, 111, 32, 102, 114, 111, 109, 32, 101, 120, 97, 109, 112, 108, 101,
        32, 116, 97, 115, 107, 33] := by
  decide

/-- Line 51 on a short message: when the C string in the source array has fewer
than 255 bytes, it is copied with its terminating 0. -/
theorem strncpy_short (dst src : List Nat) (hd : dst.length = 256)
    (hs : (c_str src).length < 255) :
    strncpy dst src 255 =
      c_str src ++ List.replicate (255 - (c_str src).length) 0 ++ dst.drop 255 ∧
    c_str (strncpy dst src 255) = c_str src := by
  have heq := strncpy_eq dst src 255 (by omega)
  rw [List.take_of_length_le (by omega)] at heq
  refine ⟨heq, ?_⟩
  obtain ⟨k, hk⟩ : ∃ k, 255 - (c_str src).length = k + 1 := ⟨254 - (c_str src).length, by omega⟩
  rw [heq, hk, List.replicate_succ, List.append_assoc, List.cons_append]
  exact c_str_append_zero _ _ (c_str_no_zero src)

/-- Line 51 on a message of 255 bytes or more: the first 255 bytes of the source
array are copied, none of them 0, and the last byte of the destination stays. -/
theorem strncpy_long (dst src : List Nat) (hd : dst.length = 256)
    (hs : 255 ≤ (c_str src).length) :
    strncpy dst src 255 = src.take 255 ++ dst.drop 255 ∧
    0 ∉ src.take 255 ∧
    (0 ∈ strncpy dst src 255 ↔ dst.drop 255 = [0]) := by
  have heq := strncpy_eq dst src 255 (by omega)
  rw [Nat.sub_eq_zero_of_le hs, List.replicate_zero, List.append_nil, c_str_take src 255 hs]
    at heq
  have hz : 0 ∉ src.take 255 := by
    rw [← c_str_take src 255 hs]
    exact fun h => c_str_no_zero src (List.mem_of_mem_take h)
  refine ⟨heq, hz, ?_⟩
  have hlen : (dst.drop 255).length = 1 := by simp [hd]
  obtain ⟨b, hb⟩ := List.length_eq_one.mp hlen
  rw [heq, hb, List.mem_append]
  constructor
  · rintro (h | h)
    · exact absurd h hz
    · simp at h
      rw [← h]
  · intro h
    right
    simp at h
    simp [h]

/-- C23: `example_task_initialize` always returns 0 and sets the counter to 0,
and leaves the base record as it is. With an `ExampleTaskConfig` attached it
copies the work interval and the random-delay flag, and `strncpy` writes the
first 255 bytes of the 256-byte message array of the task and never its last
byte: a message of fewer than 255 bytes is copied whole, with 0 bytes up to
index 254, and the task then holds the same C string; of a message of 255
bytes or more exactly the first 255 bytes are copied and no terminating 0 is
written, so the task's array holds a 0 byte only when its last byte was 0
before the call. With no custom configuration it sets work interval 5, no
random delay and the message "Hello from example task!" with its terminating
0, leaving the bytes behind it. -/
theorem example_task_initialize_contract (task : ExampleTask) :
    ( example_task_initialize task).1 = 0 ∧
    ( example_task_initialize task).2.counter = 0 ∧
    ( example_task_initialize task).2.base = task.base ∧
    (∀ cfg : ExampleTaskConfig,
      task.base.config.custom_config = some (.example_task cfg) →
      ( example_task_initialize task).2.work_interval = cfg.work_interval ∧
      ( example_task_initialize task).2.use_random_delay = cfg.use_random_delay ∧
      ( example_task_initialize task).2.message.length = task.message.length ∧
      (task.message.length = 256 → cfg.message.length = 256 →
        ( example_task_initialize task).2.message.drop 255 = task.message.drop 255 ∧
        ((c_str cfg.message).length < 255 →
          ( example_task_initialize task).2.message =
            c_str cfg.message ++ List.replicate (255 - (c_str cfg.message).length) 0 ++
              task.message.drop 255 ∧
          c_str ( example_task_initialize task).2.message = c_str cfg.message) ∧
        (255 ≤ (c_str cfg.message).length →
          ( example_task_initialize task).2.message =
            cfg.message.take 255 ++ task.message.drop 255 ∧
          0 ∉ cfg.message.take 255 ∧
          (0 ∈ ( example_task_initialize task).2.message ↔ task.message.drop 255 = [0])))) ∧
    (task.base.config.custom_config = none →
      ( example_task_initialize task).2.work_interval = 5 ∧
      ( example_task_initialize task).2.use_random_delay = false ∧
      ( example_task_initialize task).2.message =
        utf8 "Hello from example task!" ++ 0 :: task.message.drop 25 ∧
      c_str ( example_task_initialize task).2.message = utf8 "Hello from example task!" ∧
      (25 ≤ task.message.length →
        ( example_task_initialize task).2.message.length = task.message.length)) := by
  refine ⟨rfl, rfl, ?_, ?_, ?_⟩
  · simp only [ example_task_initialize, task_get_custom_config]
    split <;> rfl
  · intro cfg hcfg
    simp only [ example_task_initialize, task_get_custom_config, hcfg]
    refine ⟨trivial, trivial, strncpy_length task.message cfg.message 255, ?_⟩
    intro hlen _
    refine ⟨?_, strncpy_short task.message cfg.message hlen, strncpy_long task.message cfg.message hlen⟩
    rw [strncpy_eq task.message cfg.message 255 (by omega)]
    apply List.drop_left'
    simp only [List.length_append, List.length_take, List.length_replicate]
    omega
  · intro hnone
    simp only [ example_task_initialize, task_get_custom_config, hnone]
    have hmsg : strcpy task.message (utf8 "Hello from example task!") =
        utf8 "Hello from example task!" ++ 0 :: task.message.drop 25 := by
      simp [strcpy, write_prefix, utf8_default_message]
    refine ⟨trivial, trivial, hmsg, ?_, ?_⟩
    · rw [hmsg]
      exact c_str_append_zero _ _ (by rw [utf8_default_message]; decide)
    · intro h25
      rw [hmsg, utf8_default_message]
      simp only [List.length_append, List.length_cons, List.length_drop, List.length_nil]
      omega

set_option maxRecDepth 100000 in
/-- C23, at concrete inputs. The custom configuration `custom_config1` of
`task_demo.c` (work interval 3, a message of 35 bytes) on a task whose array
held 255 in every byte: the task then holds the same C string. A message of 255
bytes `A` on the same task: the 255 bytes are copied and the array holds no 0
byte. No custom configuration: work interval 5 and the default message. -/
theorem example_task_initialize_contract_witness :
    (( example_task_initialize
        { sample_example_task with
          counter := 9
          message := List.replicate 256 255
          base := { sample_task with
            config := { config1 with
              custom_config := some (.example_task
                ⟨3, false, char_array 256 "我是任务1，每3秒工作一次"⟩) } } }).2.work_interval
      = 3 ∧
     c_str ( example_task_initialize
        { sample_example_task with
          counter := 9
          message := List.replicate 256 255
          base := { sample_task with
            config := { config1 with
              custom_config := some (.example_task
                ⟨3, false, char_array 256 "我是任务1，每3秒工作一次"⟩) } } }).2.message
      = utf8 "我是任务1，每3秒工作一次") ∧
    (( example_task_initialize
        { sample_example_task with
          message := List.replicate 256 255
          base := { sample_task with
            config := { config1 with
              custom_config := some (.example_task
                ⟨3, false, List.replicate 255 65 ++ [0]⟩) } } }).2.message
      = (List.replicate 255 65 ++ [0]).take 255 ++ (List.replicate 256 255).drop 255 ∧
     ¬ (0 ∈ ( example_task_initialize
        { sample_example_task with
          message := List.replicate 256 255
          base := { sample_task with
            config := { config1 with
              custom_config := some (.example_task
                ⟨3, false, List.replicate 255 65 ++ [0]⟩) } } }).2.message)) ∧
    (( example_task_initialize
        { sample_example_task with counter := 9, work_interval := 1 }).2.work_interval = 5 ∧
     c_str ( example_task_initialize
        { sample_example_task with counter := 9, work_interval := 1 }).2.message
      = utf8 "Hello from example task!") :=
  ⟨⟨((example_task_initialize_contract
        { sample_example_task with
          counter := 9
          message := List.replicate 256 255
          base := { sample_task with
            config := { config1 with
              custom_config := some (.example_task
                ⟨3, false, char_array 256 "我是任务1，每3秒工作一次"⟩) } } }).2.2.2.1
      ⟨3, false, char_array 256 "我是任务1，每3秒工作一次"⟩ rfl).1,
    (((((example_task_initialize_contract
        { sample_example_task with
          counter := 9
          message := List.replicate 256 255
          base := { sample_task with
            config := { config1 with
              custom_config := some (.example_task
                ⟨3, false, char_array 256 "我是任务1，每3秒工作一次"⟩) } } }).2.2.2.1
      ⟨3, false, char_array 256 "我是任务1，每3秒工作一次"⟩ rfl).2.2.2
        (by decide) (by decide)).2.1 (by decide)).2).trans (by decide)⟩,
   ⟨((((example_task_initialize_contract
        { sample_example_task with
          message := List.replicate 256 255
          base := { sample_task with
            config := { config1 with
              custom_config := some (.example_task
                ⟨3, false, List.replicate 255 65 ++ [0]⟩) } } }).2.2.2.1
      ⟨3, false, List.replicate 255 65 ++ [0]⟩ rfl).2.2.2
        (by decide) (by decide)).2.2 (by decide)).1,
    fun h => absurd (((((example_task_initialize_contract
        { sample_example_task with
          message := List.replicate 256 255
          base := { sample_task with
            config := { config1 with
              custom_config := some (.example_task
                ⟨3, false, List.replicate 255 65 ++ [0]⟩) } } }).2.2.2.1
      ⟨3, false, List.replicate 255 65 ++ [0]⟩ rfl).2.2.2
        (by decide) (by decide)).2.2 (by decide)).2.2.mp h) (by decide)⟩,
   ⟨((example_task_initialize_contract
        { sample_example_task with counter := 9, work_interval := 1 }).2.2.2.2 rfl).1,
    ((example_task_initialize_contract
        { sample_example_task with counter := 9, work_interval := 1 }).2.2.2.2 rfl).2.2.2.1⟩⟩

/-! ## The resource gauges -/

/-- A wrapped value is in the range of `int`. -/
theorem wrapInt32_range (x : Int) : -2 ^ 31 ≤ wrapInt32 x ∧ wrapInt32 x < 2 ^ 31 := by
  unfold wrapInt32
  omega

/-- C24: when the cycle count after the increment, `c`, is at least 1, the CPU gauge
written by the plugin's loop pass and by the example task's work iteration is
`10 + c mod 20`, between 10 and 29 (so at most 100), and the memory gauge is
`k` MiB with `k = 5 + c mod 10` between 5 and 14 for the plugin and
`k = 2 + c mod 5` between 2 and 6 for the task; the `int` product that
computes it stays within the range of a 32-bit `int`. -/
theorem gauges_in_range (now : Nat) (cycle_count : Int) (p : Plugin) (e : ExecEnv)
    (task : ExampleTask) (hc : 1 ≤ wrapInt32 (cycle_count + 1))
    (ht : 1 ≤ wrapInt32 (task.counter + 1)) :
    (((ExampleProcess.start_body now cycle_count p).2.g_stats.cpu_usage : Int)
        = 10 + wrapInt32 (cycle_count + 1) % 20 ∧
      10 ≤ (ExampleProcess.start_body now cycle_count p).2.g_stats.cpu_usage ∧
      (ExampleProcess.start_body now cycle_count p).2.g_stats.cpu_usage ≤ 29 ∧
      (ExampleProcess.start_body now cycle_count p).2.g_stats.cpu_usage ≤ 100 ∧
      ((ExampleProcess.start_body now cycle_count p).2.g_stats.memory_usage : Int)
        = (5 + wrapInt32 (cycle_count + 1) % 10) * 1048576 ∧
      5 * 1048576 ≤ (ExampleProcess.start_body now cycle_count p).2.g_stats.memory_usage ∧
      (ExampleProcess.start_body now cycle_count p).2.g_stats.memory_usage ≤ 14 * 1048576 ∧
      -2 ^ 31 ≤ 1024 * 1024 * (5 + Int.tmod (wrapInt32 (cycle_count + 1)) 10) ∧
      1024 * 1024 * (5 + Int.tmod (wrapInt32 (cycle_count + 1)) 10) < 2 ^ 31) ∧
    (((example_task_work e task).1.base.stats.cpu_usage : Int)
        = 10 + wrapInt32 (task.counter + 1) % 20 ∧
      10 ≤ (example_task_work e task).1.base.stats.cpu_usage ∧
      (example_task_work e task).1.base.stats.cpu_usage ≤ 29 ∧
      (example_task_work e task).1.base.stats.cpu_usage ≤ 100 ∧
      ((example_task_work e task).1.base.stats.memory_usage : Int)
        = (2 + wrapInt32 (task.counter + 1) % 5) * 1048576 ∧
      2 * 1048576 ≤ (example_task_work e task).1.base.stats.memory_usage ∧
      (example_task_work e task).1.base.stats.memory_usage ≤ 6 * 1048576 ∧
      -2 ^ 31 ≤ 1024 * 1024 * (2 + Int.tmod (wrapInt32 (task.counter + 1)) 5) ∧
      1024 * 1024 * (2 + Int.tmod (wrapInt32 (task.counter + 1)) 5) < 2 ^ 31) := by
  constructor
  · simp only [ExampleProcess.start_body, toU32, toU64]
    generalize wrapInt32 (cycle_count + 1) = c at hc ⊢
    have h20 : Int.tmod c 20 = c % 20 := Int.tmod_eq_emod (by omega) (by omega)
    have h10 : Int.tmod c 10 = c % 10 := Int.tmod_eq_emod (by omega) (by omega)
    rw [h20, h10]
    omega
  · simp only [example_task_work, task_update_heartbeat, toU32, toU64]
    generalize wrapInt32 (task.counter + 1) = c at ht ⊢
    have h20 : Int.tmod c 20 = c % 20 := Int.tmod_eq_emod (by omega) (by omega)
    have h5 : Int.tmod c 5 = c % 5 := Int.tmod_eq_emod (by omega) (by omega)
    rw [h20, h5]
    omega

/-- C24, at concrete inputs: the first pass of the plugin's loop and the first
work iteration of the task. -/
theorem gauges_in_range_witness :
    (10 ≤ (ExampleProcess.start_body 100 0 Plugin.initial).2.g_stats.cpu_usage ∧
      (ExampleProcess.start_body 100 0 Plugin.initial).2.g_stats.cpu_usage ≤ 29 ∧
      (ExampleProcess.start_body 100 0 Plugin.initial).2.g_stats.memory_usage
        ≤ 14 * 1048576) ∧
    (10 ≤ (example_task_work ⟨100, 0⟩ sample_example_task).1.base.stats.cpu_usage ∧
      (example_task_work ⟨100, 0⟩ sample_example_task).1.base.stats.cpu_usage ≤ 29 ∧
      (example_task_work ⟨100, 0⟩ sample_example_task).1.base.stats.memory_usage
        ≤ 6 * 1048576) :=
  have h := gauges_in_range 100 0 Plugin.initial ⟨100, 0⟩ sample_example_task
    (by decide) (by decide)
  ⟨⟨h.1.2.1, h.1.2.2.1, h.1.2.2.2.2.2.2.1⟩, ⟨h.2.2.1, h.2.2.2.1, h.2.2.2.2.2.2.2.1⟩⟩

/-! ## `SimpleCppTask::start` terminates -/

/-- `SimpleCppTask::stop` does not change the iteration count. -/
theorem simple_stop_count (t : SimpleCppTask) :
    t.stop.iteration_count_ = t.iteration_count_ := by
  unfold SimpleCppTask.stop
  split <;> rfl

/-- A stop request from another thread keeps `simple_inv`. -/
theorem simple_inv_stop (n : Int) (c : SimpleConfig) (h : simple_inv n c) :
    simple_inv n
      { c with unit := { c.unit with task := c.unit.task.map SimpleCppTask.stop } } := by
  obtain ⟨t, ht, h1, h2, h3, h4, h5⟩ := h
  refine ⟨t.stop, by simp [ht], ?_, ?_, h3, ?_, h5⟩
  · rw [simple_stop_count]; exact h1
  · rw [simple_stop_count]; exact h2
  · intro hb
    rw [simple_stop_count]
    exact h4 hb

/-- A step of `simple_cpp_task_execute` keeps `simple_inv`. -/
theorem simple_inv_step (n : Int) (c : SimpleConfig) (h : simple_inv n c) :
    simple_inv n (simple_cpp_task_execute_step c) := by
  obtain ⟨⟨base, task⟩, pc, slept⟩ := c
  obtain ⟨t, ht, h1, h2, h3, h4, h5⟩ := h
  simp only at ht h1 h2 h4 h5
  subst ht
  cases pc with
  | entry =>
    exact ⟨{ t with running_ := true }, rfl, h1, h2, h3,
      by simp [simple_cpp_task_execute_step], by simp [simple_cpp_task_execute_step]⟩
  | loop_test =>
    by_cases hc : t.running_ = true ∧ t.iteration_count_ < 100
    · refine ⟨t, by simp [simple_cpp_task_execute_step, hc], ?_, h2, h3, ?_, ?_⟩
      · simpa [simple_cpp_task_execute_step, hc] using h1
      · intro _
        exact hc.2
      · simp [simple_cpp_task_execute_step, hc]
    · refine ⟨t, ?_, ?_, h2, h3, ?_, ?_⟩
      · simp only [simple_cpp_task_execute_step, if_neg hc]
      · simpa only [simple_cpp_task_execute_step, if_neg hc] using h1
      · simp only [simple_cpp_task_execute_step, if_neg hc]
        intro hb
        cases hb
      · simp only [simple_cpp_task_execute_step, if_neg hc]
        intro code hcode
        cases hcode
        rfl
  | body =>
    have hlt := h4 rfl
    have hw : wrapInt32 (t.iteration_count_ + 1) = t.iteration_count_ + 1 :=
      wrapInt32_of_range _ (by omega) (by omega)
    refine ⟨{ t with iteration_count_ := wrapInt32 (t.iteration_count_ + 1) }, rfl, ?_, ?_, h3,
      ?_, ?_⟩
    · simp only [simple_cpp_task_execute_step, hw, List.length_cons]
      push_cast
      omega
    · simp only [hw]
      omega
    · simp only [simple_cpp_task_execute_step]
      intro hb
      cases hb
    · simp only [simple_cpp_task_execute_step]
      intro code hcode
      cases hcode
  | returned code => exact ⟨t, rfl, h1, h2, h3, h4, h5⟩

/-- Every schedule keeps `simple_inv`. -/
theorem simple_inv_sched (n : Int) (sched : List Bool) (c : SimpleConfig)
    (h : simple_inv n c) : simple_inv n (simple_cpp_task_execute_sched sched c) := by
  induction sched generalizing c with
  | nil => exact h
  | cons b rest ih =>
    simp only [simple_cpp_task_execute_sched]
    apply ih
    apply simple_inv_step
    cases b
    · simpa using h
    · simpa using simple_inv_stop n c h

/-- A step that is not past the return lowers the bound on the steps left, also
when a stop request comes first. -/
theorem simple_potential_step (n : Int) (b : Bool) (c : SimpleConfig) (h : simple_inv n c)
    (hpc : ∀ code, c.pc ≠ .returned code) :
    simple_potential
      (simple_cpp_task_execute_step
        (if b then
          { c with unit := { c.unit with task := c.unit.task.map SimpleCppTask.stop } }
         else c)) < simple_potential c := by
  obtain ⟨⟨base, task⟩, pc, slept⟩ := c
  obtain ⟨t, ht, h1, h2, h3, h4, h5⟩ := h
  simp only at ht h1 h2 h4 h5 hpc
  subst ht
  have hs := simple_stop_count t
  cases pc with
  | entry =>
    cases b
    · simp [simple_cpp_task_execute_step, simple_potential]
    · simp [simple_cpp_task_execute_step, simple_potential, hs]
  | loop_test =>
    cases b
    · by_cases hc : t.running_ = true ∧ t.iteration_count_ < 100
      · simp only [Bool.false_eq_true, if_false, simple_cpp_task_execute_step, if_pos hc,
          simple_potential]
        omega
      · simp only [Bool.false_eq_true, if_false, simple_cpp_task_execute_step, if_neg hc,
          simple_potential]
        omega
    · by_cases hc : t.stop.running_ = true ∧ t.stop.iteration_count_ < 100
      · simp only [if_true, Option.map_some', simple_cpp_task_execute_step, if_pos hc]
        simp only [simple_potential, hs]
        omega
      · simp only [if_true, Option.map_some', simple_cpp_task_execute_step, if_neg hc,
          simple_potential]
        omega
  | body =>
    have hlt := h4 rfl
    have hw : wrapInt32 (t.iteration_count_ + 1) = t.iteration_count_ + 1 :=
      wrapInt32_of_range _ (by omega) (by omega)
    cases b
    · simp only [Bool.false_eq_true, if_false, simple_cpp_task_execute_step, simple_potential,
        hw]
      omega
    · simp only [if_true, Option.map_some', simple_cpp_task_execute_step, simple_potential,
        hs, hw]
      omega
  | returned code => exact absurd rfl (hpc code)

/-- With the invariant, a configuration with no steps left has returned 0. -/
theorem simple_potential_zero (n : Int) (c : SimpleConfig) (h : simple_inv n c)
    (hp : simple_potential c = 0) : c.pc = .returned 0 := by
  obtain ⟨⟨base, task⟩, pc, slept⟩ := c
  obtain ⟨t, ht, h1, h2, h3, h4, h5⟩ := h
  simp only at ht h1 h2 h4 h5
  subst ht
  cases pc with
  | entry => simp [simple_potential] at hp
  | loop_test => simp [simple_potential] at hp
  | body =>
    have hlt := h4 rfl
    simp only [simple_potential] at hp
    omega
  | returned code =>
    have := h5 code rfl
    subst this
    rfl

/-- Once returned, always returned. -/
theorem simple_sched_returned (sched : List Bool) (c : SimpleConfig) (code : Int)
    (h : c.pc = .returned code) :
    (simple_cpp_task_execute_sched sched c).pc = .returned code := by
  induction sched generalizing c with
  | nil => exact h
  | cons b rest ih =>
    simp only [simple_cpp_task_execute_sched]
    apply ih
    obtain ⟨⟨base, task⟩, pc, slept⟩ := c
    simp only at h
    subst h
    cases b <;> cases task <;> rfl

/-- A schedule at least as long as the bound ends with the function returned. -/
theorem simple_sched_terminates (n : Int) (sched : List Bool) (c : SimpleConfig)
    (h : simple_inv n c) (hp : simple_potential c ≤ sched.length) :
    (simple_cpp_task_execute_sched sched c).pc = .returned 0 := by
  induction sched generalizing c with
  | nil =>
    exact simple_potential_zero n c h (by simpa using hp)
  | cons b rest ih =>
    by_cases hret : ∃ code, c.pc = .returned code
    · obtain ⟨code, hcode⟩ := hret
      obtain ⟨t, -, -, -, -, -, h5⟩ := h
      have := h5 code hcode
      subst this
      exact simple_sched_returned _ c 0 hcode
    · have hpc : ∀ code, c.pc ≠ .returned code := fun code hc => hret ⟨code, hc⟩
      have hdec := simple_potential_step n b c h hpc
      simp only [simple_cpp_task_execute_sched]
      apply ih
      · apply simple_inv_step
        cases b
        · simpa using h
        · simpa using simple_inv_stop n c h
      · simp only [List.length_cons] at hp
        exact Nat.lt_succ_iff.mp (Nat.lt_of_lt_of_le hdec hp)

/-- One more step of a run is a step followed by the run. -/
theorem simple_run_succ (k : Nat) (c : SimpleConfig) :
    simple_cpp_task_execute_run (k + 1) c
      = simple_cpp_task_execute_run k (simple_cpp_task_execute_step c) := rfl

/-- Without a stop request, from the loop test with `m` iterations to go: after
`2 * m + 1` steps the function has returned 0 with the count at 100 and `m`
more sleeps made. -/
theorem simple_run_from_loop_test (m : Nat) (base : TaskBase) (count : Int)
    (slept : List Nat) (h : count + m = 100) (hlo : -2 ^ 31 ≤ count) :
    simple_cpp_task_execute_run (2 * m + 1) ⟨⟨base, some ⟨true, count⟩⟩, .loop_test, slept⟩
      = ⟨⟨base, some ⟨true, 100⟩⟩, .returned 0, List.replicate m 500 ++ slept⟩ := by
  induction m generalizing count slept with
  | zero =>
    have hc : count = 100 := by simpa using h
    subst hc
    simp [simple_cpp_task_execute_run, simple_cpp_task_execute_step]
  | succ m ih =>
    have hlt : count < 100 := by push_cast at h; omega
    have hw : wrapInt32 (count + 1) = count + 1 :=
      wrapInt32_of_range _ (by omega) (by omega)
    have hsteps : 2 * (m + 1) + 1 = (2 * m + 1) + 1 + 1 := by omega
    rw [hsteps, simple_run_succ, simple_run_succ]
    have h1 : simple_cpp_task_execute_step
        ⟨⟨base, some ⟨true, count⟩⟩, .loop_test, slept⟩
        = ⟨⟨base, some ⟨true, count⟩⟩, .body, slept⟩ := by
      simp [simple_cpp_task_execute_step, hlt]
    have h2 : simple_cpp_task_execute_step ⟨⟨base, some ⟨true, count⟩⟩, .body, slept⟩
        = ⟨⟨base, some ⟨true, count + 1⟩⟩, .loop_test, 500 :: slept⟩ := by
      simp [simple_cpp_task_execute_step, hw]
    rw [h1, h2, ih (count + 1) (500 :: slept) (by push_cast at h; omega) (by omega)]
    simp [List.replicate_succ', List.append_assoc]

/-- Without a stop request, a call that finds the count at `n ≤ 100` returns 0
after `2 * (100 - n) + 2` steps, with the flag `running_` set, the count at 100
and `100 - n` iterations (one sleep each) made. -/
theorem simple_run_complete (base : TaskBase) (r : Bool) (n : Int) (hlo : -2 ^ 31 ≤ n)
    (hn : n ≤ 100) :
    simple_cpp_task_execute_run (2 * (100 - n).toNat + 2)
        ⟨⟨base, some ⟨r, n⟩⟩, .entry, []⟩
      = ⟨⟨base, some ⟨true, 100⟩⟩, .returned 0, List.replicate (100 - n).toNat 500⟩ := by
  have hsteps : 2 * (100 - n).toNat + 2 = (2 * (100 - n).toNat + 1) + 1 := by omega
  rw [hsteps, simple_run_succ]
  have h1 : simple_cpp_task_execute_step ⟨⟨base, some ⟨r, n⟩⟩, .entry, []⟩
      = ⟨⟨base, some ⟨true, n⟩⟩, .loop_test, []⟩ := by
    simp [simple_cpp_task_execute_step]
  rw [h1, simple_run_from_loop_test (100 - n).toNat base n [] (by omega) hlo]
  simp

/-- C26: `SimpleCppTask::start`, called through `simple_cpp_task_execute` with the
iteration count at `n ≤ 100` (an `int`), returns without any stop request:
after `2 * (100 - n) + 2` steps it has returned 0 with the count at 100 and
exactly `100 - n` iterations made. Whatever stop requests other threads make,
it has returned once that many steps are taken, the iterations made are at most
`100 - n`, and the count is `n` plus that number and never above 100. -/
theorem simple_start_terminates (base : TaskBase) (r : Bool) (n : Int) (sched : List Bool)
    (hlo : -2 ^ 31 ≤ n) (hn : n ≤ 100) :
    simple_cpp_task_execute_run (2 * (100 - n).toNat + 2)
        ⟨⟨base, some ⟨r, n⟩⟩, .entry, []⟩
      = ⟨⟨base, some ⟨true, 100⟩⟩, .returned 0, List.replicate (100 - n).toNat 500⟩ ∧
    (2 * (100 - n).toNat + 2 ≤ sched.length →
      (simple_cpp_task_execute_sched sched ⟨⟨base, some ⟨r, n⟩⟩, .entry, []⟩).pc
        = .returned 0) ∧
    (simple_cpp_task_execute_sched sched ⟨⟨base, some ⟨r, n⟩⟩, .entry, []⟩).slept.length
      ≤ (100 - n).toNat ∧
    (∃ t, (simple_cpp_task_execute_sched sched
            ⟨⟨base, some ⟨r, n⟩⟩, .entry, []⟩).unit.task = some t ∧
      t.iteration_count_ ≤ 100 ∧
      t.iteration_count_ = n +
        (simple_cpp_task_execute_sched sched
          ⟨⟨base, some ⟨r, n⟩⟩, .entry, []⟩).slept.length) := by
  have hinv0 : simple_inv n ⟨⟨base, some ⟨r, n⟩⟩, .entry, []⟩ :=
    ⟨⟨r, n⟩, rfl, by simp, hn, hlo, by simp, by simp⟩
  have hinv := simple_inv_sched n sched _ hinv0
  refine ⟨simple_run_complete base r n hlo hn, ?_, ?_, ?_⟩
  · intro hlen
    exact simple_sched_terminates n sched _ hinv0 (by simpa [simple_potential] using hlen)
  · obtain ⟨t, -, h1, h2, -⟩ := hinv
    omega
  · obtain ⟨t, ht, h1, h2, -⟩ := hinv
    exact ⟨t, ht, h2, h1⟩

/-- C26, at concrete inputs: from count 98 the call returns after 6 steps, two
iterations made; with a stop request before the fourth step it has made one. -/
theorem simple_start_terminates_witness :
    simple_cpp_task_execute_run 6 ⟨⟨sample_task, some ⟨false, 98⟩⟩, .entry, []⟩
      = ⟨⟨sample_task, some ⟨true, 100⟩⟩, .returned 0, [500, 500]⟩ ∧
    (simple_cpp_task_execute_sched [false, false, false, true, false, false]
      ⟨⟨sample_task, some ⟨false, 98⟩⟩, .entry, []⟩).pc = .returned 0 :=
  have h := simple_start_terminates sample_task false 98
    [false, false, false, true, false, false] (by decide) (by decide)
  ⟨h.1, h.2.1 (by decide)⟩

/-! ## The simple task after its 100 iterations -/

/-- C27: when `SimpleCppTask::start` has returned after completing its 100
iterations (no stop request), the flag `running_` is set and the count is 100;
`simple_cpp_task_health_check` returns true and the status text is
"C++ Task - Running: Yes, Iterations: 100", and since neither call changes the
unit they keep doing so. After `SimpleCppTask::stop` the health check is false
and the text says "Running: No"; after `simple_cpp_task_cleanup` the object is
gone, the health check is false and `simple_cpp_task_get_status` returns -1. -/
theorem simple_task_still_running (base : TaskBase) (r : Bool) (n : Int)
    (old : List Nat) (size : Nat) (hlo : -2 ^ 31 ≤ n) (hn : n ≤ 100) :
    (simple_cpp_task_execute_run (2 * (100 - n).toNat + 2)
        ⟨⟨base, some ⟨r, n⟩⟩, .entry, []⟩).pc = .returned 0 ∧
    (simple_cpp_task_execute_run (2 * (100 - n).toNat + 2)
        ⟨⟨base, some ⟨r, n⟩⟩, .entry, []⟩).unit = ⟨base, some ⟨true, 100⟩⟩ ∧
    simple_cpp_task_health_check
        (simple_cpp_task_execute_run (2 * (100 - n).toNat + 2)
          ⟨⟨base, some ⟨r, n⟩⟩, .entry, []⟩).unit
      = (true, ⟨base, some ⟨true, 100⟩⟩) ∧
    SimpleCppTask.get_status ⟨true, 100⟩ = "C++ Task - Running: Yes, Iterations: 100" ∧
    (simple_cpp_task_get_status ⟨base, some ⟨true, 100⟩⟩ (some old) size).2.1
      = ⟨base, some ⟨true, 100⟩⟩ ∧
    (size ≠ 0 →
      (simple_cpp_task_get_status ⟨base, some ⟨true, 100⟩⟩ (some old) size).2.2
        = some (strncpy_status old size
            (utf8 "C++ Task - Running: Yes, Iterations: 100")).2) ∧
    SimpleCppTask.health_check (SimpleCppTask.stop ⟨true, 100⟩) = false ∧
    SimpleCppTask.get_status (SimpleCppTask.stop ⟨true, 100⟩)
      = "C++ Task - Running: No, Iterations: 100" ∧
    (simple_cpp_task_health_check (simple_cpp_task_cleanup ⟨base, some ⟨true, 100⟩⟩)).1
      = false ∧
    (simple_cpp_task_get_status (simple_cpp_task_cleanup ⟨base, some ⟨true, 100⟩⟩)
      (some old) size).1 = -1 := by
  have hrun := simple_run_complete base r n hlo hn
  have htext : SimpleCppTask.get_status ⟨true, 100⟩
      = "C++ Task - Running: Yes, Iterations: 100" := by decide
  refine ⟨by rw [hrun], by rw [hrun], by rw [hrun]; rfl, htext, ?_, ?_, by decide, by decide,
    rfl, rfl⟩
  · simp only [simple_cpp_task_get_status]
    split <;> rfl
  · intro hs
    simp only [simple_cpp_task_get_status, if_neg hs, htext]

/-- C27, at concrete inputs: a task that ran from count 0, asked for its status
into a 64-byte buffer. -/
theorem simple_task_still_running_witness :
    simple_cpp_task_health_check
        (simple_cpp_task_execute_run 202 ⟨⟨sample_task, some SimpleCppTask.new⟩, .entry, []⟩).unit
      = (true, ⟨sample_task, some ⟨true, 100⟩⟩) ∧
    (simple_cpp_task_get_status ⟨sample_task, some ⟨true, 100⟩⟩
      (some (List.replicate 64 255)) 64).2.1 = ⟨sample_task, some ⟨true, 100⟩⟩ :=
  have h := simple_task_still_running sample_task false 0 (List.replicate 64 255) 64
    (by decide) (by decide)
  ⟨h.2.2.1, h.2.2.2.2.1⟩

end StartTool
